import Mathlib

/-!
Verification of the Site2QR repository: four client pages (poster, banner,
business card, logo) that turn form input into a canvas rendering exported as
a PNG data URL. The canvas API is shallowly embedded as a trace of operations,
page submission as a state transition together with a list of performed
effects, and the fallible browser steps (font loading, image loading, QR
encoding, context acquisition) as oracles in an environment record.
Coordinates are modelled as rationals; angle arguments of arc and ellipse are
recorded in units of pi.
-/

namespace Site2QR

/-! ### String primitives used by the pages (JS semantics on the ASCII range) -/

/-- Whitespace test used to model the JS trim and split behaviour. -/
def jsWhitespace (c : Char) : Bool := c.isWhitespace

/-- Model of String.prototype.trim. -/
def jsTrim (s : String) : String :=
  ⟨((s.data.dropWhile jsWhitespace).reverse.dropWhile jsWhitespace).reverse⟩

/-- Model of toUpperCase on one character, for the ASCII range. -/
def jsToUpperChar (c : Char) : Char :=
  if 97 ≤ c.toNat ∧ c.toNat ≤ 122 then Char.ofNat (c.toNat - 32) else c

/-- Model of toLowerCase on one character, for the ASCII range. -/
def jsToLowerChar (c : Char) : Char :=
  if 65 ≤ c.toNat ∧ c.toNat ≤ 90 then Char.ofNat (c.toNat + 32) else c

/-- Model of String.prototype.toUpperCase, for the ASCII range. -/
def jsToUpperCase (s : String) : String := ⟨s.data.map jsToUpperChar⟩

/-- Model of String.prototype.toLowerCase, for the ASCII range. -/
def jsToLowerCase (s : String) : String := ⟨s.data.map jsToLowerChar⟩

/-- `s.trim() || d`: the trimmed string when nonempty, the default otherwise. -/
def orDefault (s d : String) : String :=
  let t := jsTrim s
  if t = "" then d else t

/-- A hexadecimal digit in the sense of the source regex `[0-9a-fA-F]`. -/
def isHexDigit (c : Char) : Bool :=
  (48 ≤ c.toNat && c.toNat ≤ 57) || (97 ≤ c.toNat && c.toNat ≤ 102) ||
    (65 ≤ c.toNat && c.toNat ≤ 70)

/-- An uppercase hexadecimal digit, `[0-9A-F]`. -/
def isUpperHexDigit (c : Char) : Bool :=
  (48 ≤ c.toNat && c.toNat ≤ 57) || (65 ≤ c.toNat && c.toNat ≤ 70)

/-- Test of the source regex `^#[0-9a-fA-F]{6}$` (the `hexPattern` constant). -/
def hexPatternTest (s : String) : Bool :=
  match s.data with
  | c :: rest => c == '#' && rest.length == 6 && rest.all isHexDigit
  | [] => false

/-- Test for a well-formed six-digit uppercase hex color, `^#[0-9A-F]{6}$`. -/
def upperHexTest (s : String) : Bool :=
  match s.data with
  | c :: rest => c == '#' && rest.length == 6 && rest.all isUpperHexDigit
  | [] => false

/-- `normalizeHex` as duplicated on every page: the trimmed input uppercased
when it matches the hex pattern, the fallback otherwise. -/
def normalizeHex (value fallback : String) : String :=
  let trimmed := jsTrim value
  if hexPatternTest trimmed then jsToUpperCase trimmed else fallback

/-- `truncateText` from the poster page: the value itself when short enough,
otherwise the first maxLength-3 characters followed by three dots. The
maxLength argument is a natural number; the single call site passes 52. -/
def truncateText (value : String) (maxLength : ℕ) : String :=
  if value.data.length ≤ maxLength then value
  else ⟨value.data.take (maxLength - 3) ++ ['.', '.', '.']⟩

/-- Default primary brand color, shared by all pages. -/
def DEFAULT_PRIMARY : String := "#D6B36C"

/-- Default accent brand color, shared by all pages. -/
def DEFAULT_ACCENT : String := "#4AA7A0"

/-- Display font family constant. -/
def DISPLAY_FONT : String := "Cinzel"

/-- Body font family constant. -/
def BODY_FONT : String := "Manrope"

/-- The CSS font string `${fontWeight} ${size}px "${fontFamily}"`. -/
def fontSpec (weight size : ℤ) (family : String) : String :=
  toString weight ++ " " ++ toString size ++ "px \"" ++ family ++ "\""

/-! ### The canvas embedding: a canvas is its pixel dimensions together with
the trace of context operations performed on it, in order. -/

/-- A linear gradient: its geometry and color stops. -/
structure Gradient where
  x0 : ℚ
  y0 : ℚ
  x1 : ℚ
  y1 : ℚ
  stops : List (ℚ × String)
deriving Repr, DecidableEq

/-- The images drawn by the pages: the loaded QR bitmap (tagged with the data
URL it was loaded from) and the uploaded brand logo. -/
inductive ImageRef where
  | qr (dataUrl : String)
  | logo
deriving Repr, DecidableEq

/-- One canvas context call, recording its arguments. Angle arguments of arc
and ellipse are in units of pi. The setCanvasSize operation is expressible so
that its absence from every trace is a meaningful statement. -/
inductive CanvasOp where
  | setCanvasSize (w h : ℚ)
  | setFillColor (c : String)
  | setFillGradient (g : Gradient)
  | setStrokeColor (c : String)
  | setFont (f : String)
  | setTextAlign (a : String)
  | setTextBaseline (b : String)
  | setLineWidth (w : ℚ)
  | setGlobalAlpha (a : ℚ)
  | save
  | restore
  | clip
  | beginPath
  | closePath
  | moveTo (x y : ℚ)
  | lineTo (x y : ℚ)
  | quadraticCurveTo (cx cy x y : ℚ)
  | arc (x y r a0 a1 : ℚ)
  | ellipse (x y rx ry rot a0 a1 : ℚ)
  | fill
  | stroke
  | fillRect (x y w h : ℚ)
  | strokeRect (x y w h : ℚ)
  | fillText (t : String) (x y : ℚ)
  | drawImage (img : ImageRef) (x y w h : ℚ)
  | exportPNG (mime : String)
deriving Repr, DecidableEq

/-- Whether an operation changes the canvas dimensions. -/
def CanvasOp.isResize : CanvasOp → Bool
  | .setCanvasSize _ _ => true
  | _ => false

/-- Whether an operation draws an image. -/
def CanvasOp.isDrawImage : CanvasOp → Bool
  | .drawImage _ _ _ _ _ => true
  | _ => false

/-- Every drawImage of a QR bitmap has equal destination width and height. -/
def CanvasOp.qrSquare : CanvasOp → Bool
  | .drawImage (ImageRef.qr _) _ _ w h => decide (w = h)
  | _ => true

/-- The composite canvas: fixed dimensions plus the operation trace. -/
structure Canvas where
  width : ℚ
  height : ℚ
  ops : List CanvasOp
deriving Repr, DecidableEq

/-- `drawRoundedRect`, duplicated verbatim on the poster, banner and card
pages: a rounded-rectangle path via moveTo, lineTo and quadraticCurveTo. -/
def drawRoundedRect (x y width height radius : ℚ) : List CanvasOp :=
  let safeRadius := min radius (min (width / 2) (height / 2))
  [CanvasOp.beginPath,
   CanvasOp.moveTo (x + safeRadius) y,
   CanvasOp.lineTo (x + width - safeRadius) y,
   CanvasOp.quadraticCurveTo (x + width) y (x + width) (y + safeRadius),
   CanvasOp.lineTo (x + width) (y + height - safeRadius),
   CanvasOp.quadraticCurveTo (x + width) (y + height) (x + width - safeRadius) (y + height),
   CanvasOp.lineTo (x + safeRadius) (y + height),
   CanvasOp.quadraticCurveTo x (y + height) x (y + height - safeRadius),
   CanvasOp.lineTo x (y + safeRadius),
   CanvasOp.quadraticCurveTo x y (x + safeRadius) y,
   CanvasOp.closePath]

/-- Whether the text fits at the given size: the measured width of the text,
under the font the loop just assigned, is at most maxWidth. -/
def fitsAt (measure : String → String → ℚ) (text : String) (maxWidth : ℚ)
    (fontWeight : ℤ) (fontFamily : String) (size : ℤ) : Bool :=
  decide (measure (fontSpec fontWeight size fontFamily) text ≤ maxWidth)

/-- The sizes at which the shrink loop of drawFittedText assigns ctx.font, in
order: while the size exceeds 14 the font is set, and the loop stops when the
text fits, else retries at size - 2. -/
def fitTrace (fits : ℤ → Bool) (size : ℤ) : List ℤ :=
  if _h : 14 < size then
    if fits size then [size] else size :: fitTrace fits (size - 2)
  else []
termination_by (size - 14).toNat
decreasing_by omega

/-- The size the font is left at when the shrink loop exits; none when the
loop body never ran (starting size at most 14), in which case fillText uses
whatever font the context already had. -/
def fitLoop (fits : ℤ → Bool) (size : ℤ) : Option ℤ :=
  if _h : 14 < size then
    if fits size then some size
    else
      match fitLoop fits (size - 2) with
      | some s => some s
      | none => some size
  else none
termination_by (size - 14).toNat
decreasing_by omega

/-- Membership in the size sequence tried by the shrink loop: the values
fontSize, fontSize - 2, fontSize - 4, and so on. -/
def InSeq (size₀ s : ℤ) : Prop := ∃ k : ℕ, s = size₀ - 2 * k

/-- `drawFittedText` as on the banner, card and logo pages (with the align
argument and the textBaseline assignment). -/
def drawFittedText (measure : String → String → ℚ) (text : String) (maxWidth : ℚ)
    (fontSize : ℤ) (fontFamily : String) (fontWeight : ℤ) (x y : ℚ) (color : String)
    (align : String) : List CanvasOp :=
  CanvasOp.setTextAlign align :: CanvasOp.setTextBaseline "alphabetic" ::
    CanvasOp.setFillColor color ::
    ((fitTrace (fitsAt measure text maxWidth fontWeight fontFamily) fontSize).map
      (fun s => CanvasOp.setFont (fontSpec fontWeight s fontFamily)) ++
      [CanvasOp.fillText text x y])

/-- `drawFittedText` as on the poster page (always centered, no baseline
assignment). -/
def drawFittedTextPoster (measure : String → String → ℚ) (text : String)
    (maxWidth : ℚ) (fontSize : ℤ) (fontFamily : String) (fontWeight : ℤ)
    (x y : ℚ) (color : String) : List CanvasOp :=
  CanvasOp.setTextAlign "center" :: CanvasOp.setFillColor color ::
    ((fitTrace (fitsAt measure text maxWidth fontWeight fontFamily) fontSize).map
      (fun s => CanvasOp.setFont (fontSpec fontWeight s fontFamily)) ++
      [CanvasOp.fillText text x y])

/-- `getInitials` from the card and logo pages: the first character, uppercased,
of each of the first two whitespace-separated words of the trimmed value, or
the string QR when the value trims to empty. -/
def getInitials (value : String) : String :=
  let trimmed := jsTrim value
  if trimmed = "" then "QR"
  else
    let words := (trimmed.data.splitOnP jsWhitespace).filter (fun w => w ≠ [])
    ⟨((words.take 2).map (fun w =>
        match w with
        | [] => ([] : List Char)
        | c :: _ => [jsToUpperChar c])).flatten⟩

/-! ### Color mixing used by the poster template palettes -/

/-- Value of one hexadecimal digit, as Number.parseInt reads it. -/
def hexDigitVal (c : Char) : ℕ :=
  if 48 ≤ c.toNat ∧ c.toNat ≤ 57 then c.toNat - 48
  else if 97 ≤ c.toNat ∧ c.toNat ≤ 102 then c.toNat - 87
  else if 65 ≤ c.toNat ∧ c.toNat ≤ 70 then c.toNat - 55
  else 0

/-- Number.parseInt of a two-character hex slice; the call sites always pass
well-formed two-digit slices of six-digit colors. -/
def parseHexPair : List Char → ℕ
  | a :: b :: _ => 16 * hexDigitVal a + hexDigitVal b
  | [a] => hexDigitVal a
  | [] => 0

/-- `hexToRgb`: strip a leading number sign and read three channel bytes. -/
def hexToRgb (hex : String) : ℕ × ℕ × ℕ :=
  let clean := match hex.data with
    | c :: rest => if c = '#' then rest else c :: rest
    | [] => []
  (parseHexPair (clean.take 2),
   parseHexPair ((clean.drop 2).take 2),
   parseHexPair ((clean.drop 4).take 2))

/-- One lowercase hex digit of a byte, as toString(16) produces. -/
def hexDigitChar (n : ℕ) : Char :=
  if n < 10 then Char.ofNat (48 + n) else Char.ofNat (87 + n)

/-- A channel byte as two lowercase hex characters (toString(16) padded). -/
def toHexByte (n : ℕ) : List Char :=
  [hexDigitChar (n / 16 % 16), hexDigitChar (n % 16)]

/-- `rgbToHex`: the channels rendered as hex and uppercased. -/
def rgbToHex (r g b : ℕ) : String :=
  jsToUpperCase ⟨'#' :: (toHexByte r ++ toHexByte g ++ toHexByte b)⟩

/-- Math.round for the nonnegative channel mixes: floor of x + one half. -/
def jsRound (x : ℚ) : ℕ := (⌊x + 1 / 2⌋).toNat

/-- One channel of `mixHex`. -/
def mixChannel (a b : ℕ) (amount : ℚ) : ℕ :=
  jsRound ((a : ℚ) + ((b : ℚ) - (a : ℚ)) * amount)

/-- `mixHex` from the poster page: channelwise interpolation of two colors. -/
def mixHex (first second : String) (amount : ℚ) : String :=
  let colorA := hexToRgb first
  let colorB := hexToRgb second
  rgbToHex (mixChannel colorA.1 colorB.1 amount)
    (mixChannel colorA.2.1 colorB.2.1 amount)
    (mixChannel colorA.2.2 colorB.2.2 amount)

/-! ### The poster templates -/

/-- The palette record of a poster template. -/
structure Palette where
  background : String
  backgroundAlt : String
  frame : String
  text : String
  muted : String
  accent : String
  glow : String
  card : String
  cardBorder : String
  qrDark : String
  qrLight : String
deriving Repr, DecidableEq

/-- A poster template: identity, copy and palette. -/
structure PosterTemplate where
  id : String
  name : String
  description : String
  cta : String
  palette : Palette
deriving Repr, DecidableEq

/-- `buildTemplates` from the poster page: the three template styles derived
from the normalized primary and accent colors. -/
def buildTemplates (primary accent : String) : List PosterTemplate :=
  let baseDark := "#0B0B10"
  let baseLight := "#F7F3EA"
  [{ id := "gilt", name := "Gilt Plaque",
     description := "Classic dark board with gold framing.",
     cta := "Connect with us",
     palette :=
       { background := baseDark
         backgroundAlt := mixHex baseDark primary (12 / 100)
         frame := mixHex primary "#FFFFFF" (25 / 100)
         text := "#F8F4E6"
         muted := mixHex "#F8F4E6" "#9CA3AF" (25 / 100)
         accent := primary
         glow := mixHex primary "#FFFFFF" (35 / 100)
         card := "#FDF8EE"
         cardBorder := mixHex primary "#FFFFFF" (35 / 100)
         qrDark := mixHex primary "#101010" (4 / 10)
         qrLight := "#FFFFFF" } },
   { id := "noir", name := "Noir Accent",
     description := "Deep tones with bold accent energy.",
     cta := "Scan the code",
     palette :=
       { background := mixHex baseDark accent (8 / 100)
         backgroundAlt := mixHex "#111827" accent (16 / 100)
         frame := mixHex accent "#FFFFFF" (22 / 100)
         text := "#F3F4F6"
         muted := mixHex "#F3F4F6" "#94A3B8" (35 / 100)
         accent := accent
         glow := mixHex accent "#FFFFFF" (28 / 100)
         card := mixHex "#F8FAFC" accent (8 / 100)
         cardBorder := mixHex accent "#FFFFFF" (35 / 100)
         qrDark := mixHex accent "#0F172A" (5 / 10)
         qrLight := "#FFFFFF" } },
   { id := "ivory", name := "Ivory Studio",
     description := "Light premium layout with soft framing.",
     cta := "Your link, beautifully",
     palette :=
       { background := baseLight
         backgroundAlt := mixHex baseLight primary (1 / 10)
         frame := mixHex primary "#000000" (2 / 10)
         text := "#1F2937"
         muted := mixHex "#1F2937" "#6B7280" (55 / 100)
         accent := accent
         glow := mixHex accent "#FFFFFF" (35 / 100)
         card := "#FFFFFF"
         cardBorder := mixHex primary "#FFFFFF" (5 / 10)
         qrDark := mixHex primary "#111827" (4 / 10)
         qrLight := "#FFFFFF" } }]

/-! ### Environment: the fallible browser facilities the pages await -/

/-- The oracles for the effectful steps: text measurement under a font,
the third-party QR encoder (text, width, dark, light to a data URL), the font
loading promise, image loading from a source URL, and whether getContext
returns a context. -/
structure Env where
  measure : String → String → ℚ
  qrEncode : String → ℚ → String → String → Except Unit String
  fontsReady : Except Unit Unit
  loadImg : String → Except Unit Unit
  ctxOk : Bool

/-! ### The four generators -/

/-- Poster canvas width. -/
def POSTER_WIDTH : ℚ := 1200

/-- Poster canvas height. -/
def POSTER_HEIGHT : ℚ := 800

/-- Banner canvas width. -/
def BANNER_WIDTH : ℚ := 1600

/-- Banner canvas height. -/
def BANNER_HEIGHT : ℚ := 600

/-- Business card canvas width. -/
def CARD_WIDTH : ℚ := 1050

/-- Business card canvas height. -/
def CARD_HEIGHT : ℚ := 600

/-- Logo canvas width. -/
def LOGO_WIDTH : ℚ := 1000

/-- Logo canvas height. -/
def LOGO_HEIGHT : ℚ := 600

/-- The payload handed to createPoster. The logoImage field records whether a
loaded logo image was passed (null otherwise). -/
structure PosterPayload where
  template : PosterTemplate
  brandName : String
  tagline : String
  url : String
  qrSize : ℚ
  qrDataUrl : String
  logoImage : Option Unit

/-- The drawing trace of createPoster, in source order. -/
def posterOps (measure : String → String → ℚ) (p : PosterPayload) : List CanvasOp :=
  let pal := p.template.palette
  let cardWidth := p.qrSize + 90
  let cardHeight := p.qrSize + 90
  let cardX := (POSTER_WIDTH - cardWidth) / 2
  let cardY : ℚ := 260
  [CanvasOp.setFillGradient ⟨0, 0, POSTER_WIDTH, POSTER_HEIGHT,
      [(0, pal.background), (1, pal.backgroundAlt)]⟩,
   CanvasOp.fillRect 0 0 POSTER_WIDTH POSTER_HEIGHT,
   CanvasOp.save, CanvasOp.setGlobalAlpha (35 / 100), CanvasOp.setFillColor pal.glow,
   CanvasOp.beginPath,
   CanvasOp.ellipse (POSTER_WIDTH * (82 / 100)) (POSTER_HEIGHT * (18 / 100)) 190 120 0 0 2,
   CanvasOp.fill, CanvasOp.restore,
   CanvasOp.save, CanvasOp.setGlobalAlpha (2 / 10), CanvasOp.setFillColor pal.accent,
   CanvasOp.beginPath,
   CanvasOp.ellipse (POSTER_WIDTH * (18 / 100)) (POSTER_HEIGHT * (86 / 100)) 220 140 0 0 2,
   CanvasOp.fill, CanvasOp.restore,
   CanvasOp.setLineWidth 6, CanvasOp.setStrokeColor pal.frame,
   CanvasOp.strokeRect 28 28 (POSTER_WIDTH - 56) (POSTER_HEIGHT - 56),
   CanvasOp.setLineWidth 2, CanvasOp.setStrokeColor "rgba(255, 255, 255, 0.12)",
   CanvasOp.strokeRect 52 52 (POSTER_WIDTH - 104) (POSTER_HEIGHT - 104)] ++
  (match p.logoImage with
   | some _ =>
     [CanvasOp.save, CanvasOp.beginPath, CanvasOp.arc 110 110 (88 / 2) 0 2,
      CanvasOp.closePath, CanvasOp.clip,
      CanvasOp.drawImage ImageRef.logo (110 - 88 / 2) (110 - 88 / 2) 88 88,
      CanvasOp.restore,
      CanvasOp.setStrokeColor pal.frame, CanvasOp.setLineWidth 3, CanvasOp.beginPath,
      CanvasOp.arc 110 110 (88 / 2 + 3) 0 2, CanvasOp.stroke]
   | none => []) ++
  drawFittedTextPoster measure p.brandName (POSTER_WIDTH - 200) 48 DISPLAY_FONT 700
    (POSTER_WIDTH / 2) 128 pal.text ++
  drawFittedTextPoster measure p.tagline (POSTER_WIDTH - 240) 22 BODY_FONT 500
    (POSTER_WIDTH / 2) 162 pal.muted ++
  [CanvasOp.setFont (fontSpec 600 26 DISPLAY_FONT), CanvasOp.setTextAlign "center",
   CanvasOp.setFillColor pal.accent,
   CanvasOp.fillText p.template.cta (POSTER_WIDTH / 2) 220] ++
  drawRoundedRect cardX cardY cardWidth cardHeight 28 ++
  [CanvasOp.setFillColor pal.card, CanvasOp.fill,
   CanvasOp.setLineWidth 3, CanvasOp.setStrokeColor pal.cardBorder, CanvasOp.stroke,
   CanvasOp.drawImage (ImageRef.qr p.qrDataUrl) (cardX + 45) (cardY + 45) p.qrSize p.qrSize,
   CanvasOp.setFont (fontSpec 500 20 BODY_FONT), CanvasOp.setFillColor pal.muted,
   CanvasOp.setTextAlign "center",
   CanvasOp.fillText (truncateText p.url 52) (POSTER_WIDTH / 2) (cardY + cardHeight + 50),
   CanvasOp.setFont (fontSpec 600 18 BODY_FONT), CanvasOp.setFillColor pal.text,
   CanvasOp.fillText p.template.name (POSTER_WIDTH / 2) (POSTER_HEIGHT - 62)] ++
  [CanvasOp.exportPNG "image/png"]

/-- `createPoster`: fails when no 2d context is available or the QR image does
not load; otherwise the fixed-size canvas carrying the poster trace. -/
def createPoster (env : Env) (p : PosterPayload) : Except Unit Canvas :=
  if env.ctxOk then do
    let _ ← env.loadImg p.qrDataUrl
    pure ⟨POSTER_WIDTH, POSTER_HEIGHT, posterOps env.measure p⟩
  else Except.error ()

/-- The payload handed to createBanner. -/
structure BannerPayload where
  brandName : String
  headline : String
  subheadline : String
  cta : String
  url : String
  primary : String
  accent : String
  qrDataUrl : String

/-- The drawing trace of createBanner, in source order. -/
def bannerOps (measure : String → String → ℚ) (p : BannerPayload) : List CanvasOp :=
  let leftX : ℚ := 120
  let rightWidth : ℚ := 320
  let rightX := BANNER_WIDTH - rightWidth - 120
  let leftWidth := rightX - leftX - 20
  let ctaTextWidth := measure (fontSpec 600 18 BODY_FONT) p.cta
  let ctaWidth := ctaTextWidth + 56
  let ctaHeight : ℚ := 50
  let ctaY : ℚ := 350
  let cardX := rightX
  let cardY : ℚ := 130
  let cardWidth := rightWidth
  let cardHeight : ℚ := 340
  let qrSize : ℚ := 200
  let qrX := cardX + (cardWidth - qrSize) / 2
  let qrY := cardY + 50
  [CanvasOp.setFillGradient ⟨0, 0, BANNER_WIDTH, BANNER_HEIGHT,
      [(0, "#0B0B10"), (1, p.primary)]⟩,
   CanvasOp.fillRect 0 0 BANNER_WIDTH BANNER_HEIGHT,
   CanvasOp.save, CanvasOp.setGlobalAlpha (3 / 10), CanvasOp.setFillColor p.accent,
   CanvasOp.beginPath,
   CanvasOp.ellipse (BANNER_WIDTH * (85 / 100)) (BANNER_HEIGHT * (2 / 10)) 260 160 0 0 2,
   CanvasOp.fill, CanvasOp.restore,
   CanvasOp.save, CanvasOp.setGlobalAlpha (2 / 10), CanvasOp.setFillColor p.primary,
   CanvasOp.beginPath,
   CanvasOp.ellipse (BANNER_WIDTH * (18 / 100)) (BANNER_HEIGHT * (82 / 100)) 320 180 0 0 2,
   CanvasOp.fill, CanvasOp.restore,
   CanvasOp.setLineWidth 4, CanvasOp.setStrokeColor "rgba(255, 255, 255, 0.18)",
   CanvasOp.strokeRect 28 28 (BANNER_WIDTH - 56) (BANNER_HEIGHT - 56),
   CanvasOp.setLineWidth 1, CanvasOp.setStrokeColor "rgba(255, 255, 255, 0.08)",
   CanvasOp.strokeRect 50 50 (BANNER_WIDTH - 100) (BANNER_HEIGHT - 100),
   CanvasOp.setFont (fontSpec 600 16 BODY_FONT), CanvasOp.setTextAlign "left",
   CanvasOp.setTextBaseline "alphabetic", CanvasOp.setFillColor "rgba(248, 244, 230, 0.7)",
   CanvasOp.fillText p.brandName leftX 140] ++
  drawFittedText measure p.headline leftWidth 60 DISPLAY_FONT 700 leftX 230
    "#F8F4E6" "left" ++
  drawFittedText measure p.subheadline leftWidth 26 BODY_FONT 500 leftX 300
    "rgba(248, 244, 230, 0.75)" "left" ++
  [CanvasOp.setFont (fontSpec 600 18 BODY_FONT)] ++
  drawRoundedRect leftX ctaY ctaWidth ctaHeight 999 ++
  [CanvasOp.setFillColor p.accent, CanvasOp.fill,
   CanvasOp.setFillColor "#0B0B10", CanvasOp.setTextAlign "left",
   CanvasOp.setTextBaseline "middle",
   CanvasOp.fillText p.cta (leftX + 28) (ctaY + ctaHeight / 2)] ++
  drawFittedText measure p.url leftWidth 16 BODY_FONT 500 leftX (BANNER_HEIGHT - 80)
    "rgba(248, 244, 230, 0.6)" "left" ++
  drawRoundedRect cardX cardY cardWidth cardHeight 28 ++
  [CanvasOp.setFillColor "#F8F4E6", CanvasOp.fill,
   CanvasOp.setLineWidth 2, CanvasOp.setStrokeColor "rgba(255, 255, 255, 0.2)",
   CanvasOp.stroke,
   CanvasOp.drawImage (ImageRef.qr p.qrDataUrl) qrX qrY qrSize qrSize,
   CanvasOp.setFont (fontSpec 600 14 BODY_FONT), CanvasOp.setFillColor "#0F172A",
   CanvasOp.setTextAlign "center", CanvasOp.setTextBaseline "alphabetic",
   CanvasOp.fillText "Scan to visit" (cardX + cardWidth / 2) (cardY + cardHeight - 40)] ++
  [CanvasOp.exportPNG "image/png"]

/-- `createBanner`. -/
def createBanner (env : Env) (p : BannerPayload) : Except Unit Canvas :=
  if env.ctxOk then do
    let _ ← env.loadImg p.qrDataUrl
    pure ⟨BANNER_WIDTH, BANNER_HEIGHT, bannerOps env.measure p⟩
  else Except.error ()

/-- The payload handed to createBusinessCard. -/
structure CardPayload where
  brandName : String
  fullName : String
  role : String
  email : String
  phone : String
  website : String
  primary : String
  accent : String
  qrDataUrl : String

/-- The drawing trace of createBusinessCard, in source order. -/
def cardOps (measure : String → String → ℚ) (p : CardPayload) : List CanvasOp :=
  let panelX : ℚ := 70
  let panelY : ℚ := 70
  let panelWidth := CARD_WIDTH - 140
  let panelHeight := CARD_HEIGHT - 140
  let rightWidth : ℚ := 300
  let rightX := panelX + panelWidth - rightWidth
  let textX := panelX + 90
  let textWidth := rightX - textX - 40
  let markSize : ℚ := 58
  let markX := panelX + 90
  let markY := panelY + 95
  let qrSize : ℚ := 200
  let qrX := rightX + (rightWidth - qrSize) / 2
  let qrY := panelY + 90
  [CanvasOp.setFillGradient ⟨0, 0, CARD_WIDTH, CARD_HEIGHT,
      [(0, "#0B0B10"), (1, p.primary)]⟩,
   CanvasOp.fillRect 0 0 CARD_WIDTH CARD_HEIGHT,
   CanvasOp.save, CanvasOp.setGlobalAlpha (3 / 10), CanvasOp.setFillColor p.accent,
   CanvasOp.beginPath,
   CanvasOp.ellipse (CARD_WIDTH * (82 / 100)) (CARD_HEIGHT * (2 / 10)) 240 140 0 0 2,
   CanvasOp.fill, CanvasOp.restore] ++
  drawRoundedRect panelX panelY panelWidth panelHeight 36 ++
  [CanvasOp.setFillColor "#F9F6EF", CanvasOp.fill,
   CanvasOp.setLineWidth 3, CanvasOp.setStrokeColor p.accent, CanvasOp.stroke,
   CanvasOp.save] ++
  drawRoundedRect panelX panelY panelWidth panelHeight 36 ++
  [CanvasOp.clip, CanvasOp.setFillColor "rgba(15, 23, 42, 0.06)",
   CanvasOp.fillRect rightX panelY rightWidth panelHeight, CanvasOp.restore,
   CanvasOp.setFillColor p.accent, CanvasOp.beginPath,
   CanvasOp.arc markX markY (markSize / 2) 0 2, CanvasOp.fill,
   CanvasOp.setFillColor "#0B0B10", CanvasOp.setFont (fontSpec 700 24 DISPLAY_FONT),
   CanvasOp.setTextAlign "center", CanvasOp.setTextBaseline "middle",
   CanvasOp.fillText (getInitials p.brandName) markX (markY + 1),
   CanvasOp.setTextAlign "left", CanvasOp.setTextBaseline "alphabetic",
   CanvasOp.setFont (fontSpec 600 16 BODY_FONT), CanvasOp.setFillColor "#0F172A",
   CanvasOp.fillText p.brandName (markX + 50) (panelY + 102)] ++
  drawFittedText measure p.fullName textWidth 44 DISPLAY_FONT 700 textX (panelY + 175)
    "#0F172A" "left" ++
  [CanvasOp.setFont (fontSpec 500 20 BODY_FONT), CanvasOp.setFillColor "#475569",
   CanvasOp.fillText p.role textX (panelY + 210),
   CanvasOp.setStrokeColor "rgba(15, 23, 42, 0.15)", CanvasOp.setLineWidth 1,
   CanvasOp.beginPath, CanvasOp.moveTo textX (panelY + 232),
   CanvasOp.lineTo (rightX - 40) (panelY + 232), CanvasOp.stroke,
   CanvasOp.setFont (fontSpec 500 18 BODY_FONT), CanvasOp.setFillColor "#0F172A",
   CanvasOp.fillText p.email textX (panelY + 270),
   CanvasOp.setFillColor "#475569",
   CanvasOp.fillText p.phone textX (panelY + 300),
   CanvasOp.fillText p.website textX (panelY + 330)] ++
  drawRoundedRect (qrX - 18) (qrY - 18) (qrSize + 36) (qrSize + 36) 24 ++
  [CanvasOp.setFillColor "#FFFFFF", CanvasOp.fill,
   CanvasOp.setStrokeColor "rgba(15, 23, 42, 0.12)", CanvasOp.setLineWidth 2,
   CanvasOp.stroke,
   CanvasOp.drawImage (ImageRef.qr p.qrDataUrl) qrX qrY qrSize qrSize,
   CanvasOp.setFont (fontSpec 600 14 BODY_FONT), CanvasOp.setFillColor "#0F172A",
   CanvasOp.setTextAlign "center",
   CanvasOp.fillText "Scan for contact" (rightX + rightWidth / 2) (qrY + qrSize + 40)] ++
  [CanvasOp.exportPNG "image/png"]

/-- `createBusinessCard`. -/
def createBusinessCard (env : Env) (p : CardPayload) : Except Unit Canvas :=
  if env.ctxOk then do
    let _ ← env.loadImg p.qrDataUrl
    pure ⟨CARD_WIDTH, CARD_HEIGHT, cardOps env.measure p⟩
  else Except.error ()

/-- The two logo layouts. -/
inductive Layout where
  | horizontal
  | stacked
deriving Repr, DecidableEq

/-- The two logo tones. -/
inductive Tone where
  | light
  | dark
deriving Repr, DecidableEq

/-- The payload handed to createLogo. There is no QR data URL field: the logo
page does not encode or draw a QR code. -/
structure LogoPayload where
  brandName : String
  tagline : String
  primary : String
  accent : String
  layout : Layout
  tone : Tone

/-- The drawing trace of createLogo, in source order. -/
def logoOps (measure : String → String → ℚ) (p : LogoPayload) : List CanvasOp :=
  let background := match p.tone with | .light => "#F9F6EF" | .dark => "#0B0B10"
  let textColor := match p.tone with | .light => "#0F172A" | .dark => "#F8F4E6"
  let mutedColor := match p.tone with
    | .light => "rgba(15, 23, 42, 0.6)"
    | .dark => "rgba(248, 244, 230, 0.7)"
  let markText := match p.tone with | .light => "#0B0B10" | .dark => "#F8F4E6"
  let strokeColor := match p.tone with
    | .light => "rgba(15, 23, 42, 0.15)"
    | .dark => "rgba(248, 244, 230, 0.2)"
  let initials := getInitials p.brandName
  let markSize : ℚ := 180
  let markGradient : Gradient := ⟨0, 0, markSize, markSize, [(0, p.accent), (1, p.primary)]⟩
  [CanvasOp.setFillColor background,
   CanvasOp.fillRect 0 0 LOGO_WIDTH LOGO_HEIGHT,
   CanvasOp.save,
   CanvasOp.setGlobalAlpha (match p.tone with | .light => 2 / 10 | .dark => 15 / 100),
   CanvasOp.setFillColor p.accent, CanvasOp.beginPath,
   CanvasOp.ellipse (LOGO_WIDTH * (75 / 100)) (LOGO_HEIGHT * (2 / 10)) 220 140 0 0 2,
   CanvasOp.fill, CanvasOp.restore] ++
  (match p.layout with
   | .horizontal =>
     let markX : ℚ := 220
     let markY := LOGO_HEIGHT / 2
     let textX := markX + markSize / 2 + 60
     let textWidth := LOGO_WIDTH - textX - 80
     [CanvasOp.setFillGradient markGradient, CanvasOp.beginPath,
      CanvasOp.arc markX markY (markSize / 2) 0 2, CanvasOp.fill,
      CanvasOp.setLineWidth 6, CanvasOp.setStrokeColor strokeColor, CanvasOp.stroke,
      CanvasOp.setFillColor markText, CanvasOp.setFont (fontSpec 700 64 DISPLAY_FONT),
      CanvasOp.setTextAlign "center", CanvasOp.setTextBaseline "middle",
      CanvasOp.fillText initials markX (markY + 2)] ++
     drawFittedText measure p.brandName textWidth 56 DISPLAY_FONT 700 textX
       (LOGO_HEIGHT / 2 - 10) textColor "left" ++
     (if p.tagline ≠ "" then
       [CanvasOp.setFont (fontSpec 500 20 BODY_FONT), CanvasOp.setFillColor mutedColor,
        CanvasOp.setTextAlign "left", CanvasOp.setTextBaseline "alphabetic",
        CanvasOp.fillText p.tagline textX (LOGO_HEIGHT / 2 + 26)]
      else [])
   | .stacked =>
     let markX := LOGO_WIDTH / 2
     let markY : ℚ := 220
     [CanvasOp.setFillGradient markGradient, CanvasOp.beginPath,
      CanvasOp.arc markX markY (markSize / 2) 0 2, CanvasOp.fill,
      CanvasOp.setLineWidth 6, CanvasOp.setStrokeColor strokeColor, CanvasOp.stroke,
      CanvasOp.setFillColor markText, CanvasOp.setFont (fontSpec 700 64 DISPLAY_FONT),
      CanvasOp.setTextAlign "center", CanvasOp.setTextBaseline "middle",
      CanvasOp.fillText initials markX (markY + 2)] ++
     drawFittedText measure p.brandName (LOGO_WIDTH - 160) 58 DISPLAY_FONT 700
       (LOGO_WIDTH / 2) 360 textColor "center" ++
     (if p.tagline ≠ "" then
       [CanvasOp.setFont (fontSpec 500 20 BODY_FONT), CanvasOp.setFillColor mutedColor,
        CanvasOp.setTextAlign "center", CanvasOp.setTextBaseline "alphabetic",
        CanvasOp.fillText p.tagline (LOGO_WIDTH / 2) 392]
      else [])) ++
  [CanvasOp.exportPNG "image/png"]

/-- `createLogo`: no image loading and no QR; the only failure is a missing
2d context. -/
def createLogo (env : Env) (p : LogoPayload) : Except Unit Canvas :=
  if env.ctxOk then pure ⟨LOGO_WIDTH, LOGO_HEIGHT, logoOps env.measure p⟩
  else Except.error ()

/-! ### Submission: effects, form state and the submit handlers -/

/-- The externally visible effects of one submission or download: font loads,
calls to the third-party QR encoder, a canvas composited and exported, and a
triggered file download. -/
inductive Eff where
  | fontsLoad (spec : String)
  | qrEncode (text : String) (width : ℚ) (dark light : String)
  | render (c : Canvas)
  | download (c : Canvas) (filename : String)
deriving Repr, DecidableEq

/-- Whether an effect is a QR encoding. -/
def Eff.isQrEncode : Eff → Bool
  | .qrEncode _ _ _ _ => true
  | _ => false

/-- Whether an effect is a triggered download. -/
def Eff.isDownload : Eff → Bool
  | .download _ _ => true
  | _ => false

/-- Form fields of the poster page. -/
structure PosterForm where
  url : String
  brandName : String
  tagline : String
  primaryColor : String
  accentColor : String
  size : String
  logoUrl : Option String

/-- One entry of the poster result list. -/
structure PosterResult where
  id : String
  name : String
  description : String
  posterUrl : Canvas
deriving Repr, DecidableEq

/-- Result-side React state of the poster page. -/
structure PosterPage where
  posters : List PosterResult
  loading : Bool
  error : String
deriving Repr, DecidableEq

/-- Form fields of the banner page. -/
structure BannerForm where
  brandName : String
  headline : String
  subheadline : String
  cta : String
  url : String
  primaryColor : String
  accentColor : String

/-- Result-side React state of the banner page. -/
structure BannerPage where
  bannerUrl : Option Canvas
  loading : Bool
  error : String
deriving Repr, DecidableEq

/-- Form fields of the business card page. -/
structure CardForm where
  brandName : String
  fullName : String
  role : String
  email : String
  phone : String
  website : String
  primaryColor : String
  accentColor : String

/-- Result-side React state of the business card page. -/
structure CardPage where
  cardUrl : Option Canvas
  loading : Bool
  error : String
deriving Repr, DecidableEq

/-- Form fields of the logo page. There is no URL field. -/
structure LogoForm where
  brandName : String
  tagline : String
  layout : Layout
  tone : Tone
  primaryColor : String
  accentColor : String

/-- Result-side React state of the logo page. -/
structure LogoPage where
  logoUrl : Option Canvas
  loading : Bool
  error : String
deriving Repr, DecidableEq

/-- Number(size) || 260 for the decimal select values of the poster page. -/
def jsNumberOr (s : String) (d : ℚ) : ℚ :=
  if s.data ≠ [] ∧ s.data.all (fun c => 48 ≤ c.toNat && c.toNat ≤ 57) then
    let n : ℕ := s.data.foldl (fun acc c => 10 * acc + (c.toNat - 48)) 0
    if n = 0 then d else (n : ℚ)
  else d

/-- The clamped QR size of the poster page:
Math.min(Math.max(Number(size) || 260, 200), 360). -/
def posterQrSize (sizeField : String) : ℚ :=
  min (max (jsNumberOr sizeField 260) 200) 360

/-- The banner payload constructed by the banner submit handler. -/
def bannerPayloadOf (form : BannerForm) (trimmedUrl qrDataUrl : String) : BannerPayload :=
  { brandName := orDefault form.brandName "Your Brand"
    headline := orDefault form.headline "Your headline"
    subheadline := orDefault form.subheadline "Your banner subheadline"
    cta := orDefault form.cta "Scan now"
    url := trimmedUrl
    primary := normalizeHex form.primaryColor DEFAULT_PRIMARY
    accent := normalizeHex form.accentColor DEFAULT_ACCENT
    qrDataUrl := qrDataUrl }

/-- The card payload constructed by the card submit handler. -/
def cardPayloadOf (form : CardForm) (trimmedWebsite qrDataUrl : String) : CardPayload :=
  { brandName := orDefault form.brandName "Your Brand"
    fullName := orDefault form.fullName "Your Name"
    role := orDefault form.role "Role"
    email := orDefault form.email "hello@yourbrand.com"
    phone := orDefault form.phone "+1 (555) 555-5555"
    website := trimmedWebsite
    primary := normalizeHex form.primaryColor DEFAULT_PRIMARY
    accent := normalizeHex form.accentColor DEFAULT_ACCENT
    qrDataUrl := qrDataUrl }

/-- The logo payload constructed by the logo submit handler. -/
def logoPayloadOf (form : LogoForm) : LogoPayload :=
  { brandName := orDefault form.brandName "Your Brand"
    tagline := jsTrim form.tagline
    primary := normalizeHex form.primaryColor DEFAULT_PRIMARY
    accent := normalizeHex form.accentColor DEFAULT_ACCENT
    layout := form.layout
    tone := form.tone }

/-- The try block of the banner submit handler: fonts, QR encoding of the
trimmed URL, then createBanner; any thrown step aborts the whole block. -/
def bannerTry (env : Env) (form : BannerForm) (trimmedUrl : String) :
    Except Unit (Canvas × List Eff) := do
  let _ ← env.fontsReady
  let qrDataUrl ← env.qrEncode trimmedUrl 240 "#0F172A" "#FFFFFF"
  let c ← createBanner env (bannerPayloadOf form trimmedUrl qrDataUrl)
  pure (c, [Eff.fontsLoad (fontSpec 700 60 DISPLAY_FONT),
            Eff.fontsLoad (fontSpec 500 24 BODY_FONT),
            Eff.qrEncode trimmedUrl 240 "#0F172A" "#FFFFFF",
            Eff.render c])

/-- The try block of the card submit handler. -/
def cardTry (env : Env) (form : CardForm) (trimmedWebsite : String) :
    Except Unit (Canvas × List Eff) := do
  let _ ← env.fontsReady
  let qrDataUrl ← env.qrEncode trimmedWebsite 240 "#0F172A" "#FFFFFF"
  let c ← createBusinessCard env (cardPayloadOf form trimmedWebsite qrDataUrl)
  pure (c, [Eff.fontsLoad (fontSpec 700 44 DISPLAY_FONT),
            Eff.fontsLoad (fontSpec 600 18 BODY_FONT),
            Eff.qrEncode trimmedWebsite 240 "#0F172A" "#FFFFFF",
            Eff.render c])

/-- The try block of the logo submit handler: fonts then createLogo; no QR
encoding and no image loading occur. -/
def logoTry (env : Env) (form : LogoForm) : Except Unit (Canvas × List Eff) := do
  let _ ← env.fontsReady
  let c ← createLogo env (logoPayloadOf form)
  pure (c, [Eff.fontsLoad (fontSpec 700 58 DISPLAY_FONT),
            Eff.fontsLoad (fontSpec 500 20 BODY_FONT),
            Eff.render c])

/-- One template step of the poster submit handler: encode the QR for this
template palette, then create the poster. -/
def posterTemplateStep (env : Env) (trimmedUrl : String) (qrSize : ℚ)
    (brand tagline : String) (logoImage : Option Unit) (t : PosterTemplate) :
    Except Unit (PosterResult × List Eff) := do
  let qrDataUrl ← env.qrEncode trimmedUrl qrSize t.palette.qrDark t.palette.qrLight
  let c ← createPoster env
    { template := t, brandName := brand, tagline := tagline, url := trimmedUrl,
      qrSize := qrSize, qrDataUrl := qrDataUrl, logoImage := logoImage }
  pure ({ id := t.id, name := t.name, description := t.description, posterUrl := c },
        [Eff.qrEncode trimmedUrl qrSize t.palette.qrDark t.palette.qrLight,
         Eff.render c])

/-- The font-loading effects of the poster submit handler. -/
def posterFontsEffs : List Eff :=
  [Eff.fontsLoad (fontSpec 700 48 DISPLAY_FONT), Eff.fontsLoad (fontSpec 500 20 BODY_FONT)]

/-- The mapped template steps of the poster submit handler. -/
def posterSteps (env : Env) (form : PosterForm) (trimmedUrl : String) :
    Except Unit (List (PosterResult × List Eff)) :=
  (buildTemplates (normalizeHex form.primaryColor DEFAULT_PRIMARY)
      (normalizeHex form.accentColor DEFAULT_ACCENT)).mapM
    (posterTemplateStep env trimmedUrl (posterQrSize form.size)
      (orDefault form.brandName "Your Brand")
      (orDefault form.tagline "Scan to connect")
      (form.logoUrl.map fun _ => ()))

/-- The try block of the poster submit handler: fonts, optional logo image
load, then the three template steps. -/
def posterTry (env : Env) (form : PosterForm) (trimmedUrl : String) :
    Except Unit (List PosterResult × List Eff) := do
  let _ ← env.fontsReady
  let _ ← match form.logoUrl with
    | some src => env.loadImg src
    | none => pure ()
  let steps ← posterSteps env form trimmedUrl
  pure (steps.map Prod.fst, posterFontsEffs ++ (steps.map Prod.snd).flatten)

/-- The poster submit handler: clear the error, validate that the URL trims
nonempty, then run the try block, with a single catch-all and a finally that
clears the loading flag. -/
def posterHandleSubmit (env : Env) (form : PosterForm) (prev : PosterPage) :
    PosterPage × List Eff :=
  let st := { prev with error := "" }
  let trimmedUrl := jsTrim form.url
  if trimmedUrl = "" then
    ({ st with error := "Please enter a URL to generate posters." }, [])
  else
    let st := { st with loading := true, posters := [] }
    match posterTry env form trimmedUrl with
    | .ok (results, effs) => ({ st with posters := results, loading := false }, effs)
    | .error _ =>
      ({ st with
          error := "Could not generate branded posters. Please try again."
          loading := false }, [])

/-- The banner submit handler. -/
def bannerHandleSubmit (env : Env) (form : BannerForm) (prev : BannerPage) :
    BannerPage × List Eff :=
  let st := { prev with error := "" }
  let trimmedUrl := jsTrim form.url
  if trimmedUrl = "" then
    ({ st with error := "Please enter a URL to embed in the banner QR code." }, [])
  else
    let st := { st with loading := true, bannerUrl := none }
    match bannerTry env form trimmedUrl with
    | .ok (c, effs) => ({ st with bannerUrl := some c, loading := false }, effs)
    | .error _ =>
      ({ st with
          error := "Could not generate the banner. Please try again."
          loading := false }, [])

/-- The business card submit handler; validation is on the website field. -/
def cardHandleSubmit (env : Env) (form : CardForm) (prev : CardPage) :
    CardPage × List Eff :=
  let st := { prev with error := "" }
  let trimmedWebsite := jsTrim form.website
  if trimmedWebsite = "" then
    ({ st with error := "Please enter a website URL to generate a QR code." }, [])
  else
    let st := { st with loading := true, cardUrl := none }
    match cardTry env form trimmedWebsite with
    | .ok (c, effs) => ({ st with cardUrl := some c, loading := false }, effs)
    | .error _ =>
      ({ st with
          error := "Could not generate the business card. Please try again."
          loading := false }, [])

/-- The logo submit handler: no validation gate at all. -/
def logoHandleSubmit (env : Env) (form : LogoForm) (prev : LogoPage) :
    LogoPage × List Eff :=
  let st := { prev with error := "", loading := true, logoUrl := none }
  match logoTry env form with
  | .ok (c, effs) => ({ st with logoUrl := some c, loading := false }, effs)
  | .error _ =>
    ({ st with
        error := "Could not generate the logo. Please try again."
        loading := false }, [])

/-- Collapse every maximal whitespace run into one hyphen, the effect of
replace(/\s+/g, "-"); the flag records whether the current run already
emitted its hyphen. -/
def replaceWsRunsAux : Bool → List Char → List Char
  | _, [] => []
  | inRun, c :: rest =>
    if jsWhitespace c then
      if inRun then replaceWsRunsAux true rest
      else '-' :: replaceWsRunsAux true rest
    else c :: replaceWsRunsAux false rest

/-- replace(/\s+/g, "-") on a character list. -/
def replaceWsRuns (l : List Char) : List Char := replaceWsRunsAux false l

/-- The poster download handler: a file-safe name derived from the template
name, triggered only from the stored result. -/
def posterHandleDownload (poster : PosterResult) : List Eff :=
  [Eff.download poster.posterUrl (jsToLowerCase ⟨replaceWsRuns poster.name.data⟩ ++ ".png")]

/-- The banner download handler: nothing when no banner is stored. -/
def bannerHandleDownload (st : BannerPage) : List Eff :=
  match st.bannerUrl with
  | none => []
  | some c => [Eff.download c "banner.png"]

/-- The card download handler. -/
def cardHandleDownload (st : CardPage) : List Eff :=
  match st.cardUrl with
  | none => []
  | some c => [Eff.download c "business-card.png"]

/-- The logo download handler. -/
def logoHandleDownload (st : LogoPage) : List Eff :=
  match st.logoUrl with
  | none => []
  | some c => [Eff.download c "logo.png"]

/-! ### Concrete fixtures for instantiating the theorems -/

/-- An environment in which every awaited step succeeds. -/
def env₀ : Env :=
  { measure := fun _ _ => 0
    qrEncode := fun _ _ _ _ => Except.ok "data:image/png;base64,qr"
    fontsReady := Except.ok ()
    loadImg := fun _ => Except.ok ()
    ctxOk := true }

/-- An environment in which getContext returns null, so every generator
throws. -/
def envBad : Env := { env₀ with ctxOk := false }

/-- Extract the canvas of a successful run. -/
def orEmptyCanvas : Except Unit Canvas → Canvas
  | .ok c => c
  | .error _ => ⟨0, 0, []⟩

/-- Extract the result of a successful single-canvas try block. -/
def orEmptyRun : Except Unit (Canvas × List Eff) → Canvas × List Eff
  | .ok r => r
  | .error _ => (⟨0, 0, []⟩, [])

/-- A fixed small palette. -/
def pal₀ : Palette :=
  ⟨"#0B0B10", "#111111", "#222222", "#F8F4E6", "#999999", "#D6B36C",
   "#EEEEEE", "#FDF8EE", "#DDDDDD", "#333333", "#FFFFFF"⟩

/-- A fixed poster template. -/
def tmpl₀ : PosterTemplate :=
  ⟨"gilt", "Gilt Plaque", "Classic dark board with gold framing.",
   "Connect with us", pal₀⟩

/-- A fixed poster payload. -/
def posterPayload₀ : PosterPayload :=
  ⟨tmpl₀, "Acme", "Hello", "https://example.com", 260, "data:qr", none⟩

/-- A fixed banner payload. -/
def bannerPayload₀ : BannerPayload :=
  ⟨"Acme", "Headline", "Sub", "Scan", "https://example.com",
   "#D6B36C", "#4AA7A0", "data:qr"⟩

/-- A fixed card payload. -/
def cardPayload₀ : CardPayload :=
  ⟨"Acme", "Avery Bloom", "Director", "a@b.c", "+1 555",
   "https://example.com", "#D6B36C", "#4AA7A0", "data:qr"⟩

/-- A fixed logo payload. -/
def logoPayload₀ : LogoPayload :=
  ⟨"Site2QR", "Scan", "#D6B36C", "#4AA7A0", Layout.horizontal, Tone.light⟩

/-- The canvas produced by the fixed poster run. -/
def posterC₀ : Canvas := orEmptyCanvas (createPoster env₀ posterPayload₀)

/-- The canvas produced by the fixed banner run. -/
def bannerC₀ : Canvas := orEmptyCanvas (createBanner env₀ bannerPayload₀)

/-- The canvas produced by the fixed card run. -/
def cardC₀ : Canvas := orEmptyCanvas (createBusinessCard env₀ cardPayload₀)

/-- The canvas produced by the fixed logo run. -/
def logoC₀ : Canvas := orEmptyCanvas (createLogo env₀ logoPayload₀)

/-- A fixed poster form with a nonempty URL. -/
def posterForm₀ : PosterForm :=
  ⟨"https://example.com", "Acme", "Hello", "#abcdef", "", "260", none⟩

/-- A fixed banner form with a nonempty URL. -/
def bannerForm₀ : BannerForm :=
  ⟨"Acme", "Headline", "Sub", "Scan", "https://example.com", "#abcdef", ""⟩

/-- A fixed card form with a nonempty website. -/
def cardForm₀ : CardForm :=
  ⟨"Acme", "Avery Bloom", "Director", "a@b.c", "+1 555",
   "https://example.com", "#abcdef", ""⟩

/-- A fixed logo form. -/
def logoForm₀ : LogoForm :=
  ⟨"Site2QR", "Scan. Share. Shine.", Layout.horizontal, Tone.light, "", ""⟩

/-- The result of the fixed logo try block in the all-succeeding
environment. -/
def logoRun₀ : Canvas × List Eff := orEmptyRun (logoTry env₀ logoForm₀)

/-- The result of the fixed banner try block in the all-succeeding
environment. -/
def bannerRun₀ : Canvas × List Eff :=
  orEmptyRun (bannerTry env₀ bannerForm₀ (jsTrim bannerForm₀.url))

/-- Extract the result of a successful poster try block. -/
def orEmptyPosterRun :
    Except Unit (List PosterResult × List Eff) → List PosterResult × List Eff
  | .ok r => r
  | .error _ => ([], [])

/-- The result of the fixed card try block in the all-succeeding
environment. -/
def cardRun₀ : Canvas × List Eff :=
  orEmptyRun (cardTry env₀ cardForm₀ (jsTrim cardForm₀.website))

/-- The result of the fixed poster try block in the all-succeeding
environment. -/
def posterRun₀ : List PosterResult × List Eff :=
  orEmptyPosterRun (posterTry env₀ posterForm₀ (jsTrim posterForm₀.url))

end Site2QR

namespace Site2QR

/-! ### Inversion lemmas for the generators and try blocks -/

theorem createPoster_ok {env : Env} {p : PosterPayload} {c : Canvas}
    (h : createPoster env p = .ok c) :
    c = ⟨POSTER_WIDTH, POSTER_HEIGHT, posterOps env.measure p⟩ := by
  unfold createPoster at h
  by_cases hc : env.ctxOk
  · rw [if_pos hc] at h
    cases hl : env.loadImg p.qrDataUrl <;> rw [hl] at h <;>
      simp [bind, Except.bind, pure, Except.pure] at h
    exact h.symm
  · rw [if_neg hc] at h
    simp at h

theorem createBanner_ok {env : Env} {p : BannerPayload} {c : Canvas}
    (h : createBanner env p = .ok c) :
    c = ⟨BANNER_WIDTH, BANNER_HEIGHT, bannerOps env.measure p⟩ := by
  unfold createBanner at h
  by_cases hc : env.ctxOk
  · rw [if_pos hc] at h
    cases hl : env.loadImg p.qrDataUrl <;> rw [hl] at h <;>
      simp [bind, Except.bind, pure, Except.pure] at h
    exact h.symm
  · rw [if_neg hc] at h
    simp at h

theorem createBusinessCard_ok {env : Env} {p : CardPayload} {c : Canvas}
    (h : createBusinessCard env p = .ok c) :
    c = ⟨CARD_WIDTH, CARD_HEIGHT, cardOps env.measure p⟩ := by
  unfold createBusinessCard at h
  by_cases hc : env.ctxOk
  · rw [if_pos hc] at h
    cases hl : env.loadImg p.qrDataUrl <;> rw [hl] at h <;>
      simp [bind, Except.bind, pure, Except.pure] at h
    exact h.symm
  · rw [if_neg hc] at h
    simp at h

theorem createLogo_ok {env : Env} {p : LogoPayload} {c : Canvas}
    (h : createLogo env p = .ok c) :
    c = ⟨LOGO_WIDTH, LOGO_HEIGHT, logoOps env.measure p⟩ := by
  unfold createLogo at h
  by_cases hc : env.ctxOk
  · rw [if_pos hc] at h
    simp [pure, Except.pure] at h
    exact h.symm
  · rw [if_neg hc] at h
    simp at h

theorem bannerTry_ok {env : Env} {form : BannerForm} {t : String} {c : Canvas}
    {effs : List Eff} (h : bannerTry env form t = .ok (c, effs)) :
    ∃ q, env.qrEncode t 240 "#0F172A" "#FFFFFF" = .ok q ∧
      createBanner env (bannerPayloadOf form t q) = .ok c ∧
      effs = [Eff.fontsLoad (fontSpec 700 60 DISPLAY_FONT),
              Eff.fontsLoad (fontSpec 500 24 BODY_FONT),
              Eff.qrEncode t 240 "#0F172A" "#FFFFFF",
              Eff.render c] := by
  unfold bannerTry at h
  cases hf : env.fontsReady with
  | error e => rw [hf] at h; cases h
  | ok u =>
    rw [hf] at h
    simp only [bind, Except.bind] at h
    cases hq : env.qrEncode t 240 "#0F172A" "#FFFFFF" with
    | error e => rw [hq] at h; cases h
    | ok q =>
      rw [hq] at h
      simp only [] at h
      cases hc : createBanner env (bannerPayloadOf form t q) with
      | error e => rw [hc] at h; cases h
      | ok v =>
        rw [hc] at h
        simp only [pure, Except.pure, Except.ok.injEq, Prod.mk.injEq] at h
        obtain ⟨h1, h2⟩ := h
        subst h1
        exact ⟨q, rfl, hc, h2.symm⟩

theorem cardTry_ok {env : Env} {form : CardForm} {t : String} {c : Canvas}
    {effs : List Eff} (h : cardTry env form t = .ok (c, effs)) :
    ∃ q, env.qrEncode t 240 "#0F172A" "#FFFFFF" = .ok q ∧
      createBusinessCard env (cardPayloadOf form t q) = .ok c ∧
      effs = [Eff.fontsLoad (fontSpec 700 44 DISPLAY_FONT),
              Eff.fontsLoad (fontSpec 600 18 BODY_FONT),
              Eff.qrEncode t 240 "#0F172A" "#FFFFFF",
              Eff.render c] := by
  unfold cardTry at h
  cases hf : env.fontsReady with
  | error e => rw [hf] at h; cases h
  | ok u =>
    rw [hf] at h
    simp only [bind, Except.bind] at h
    cases hq : env.qrEncode t 240 "#0F172A" "#FFFFFF" with
    | error e => rw [hq] at h; cases h
    | ok q =>
      rw [hq] at h
      simp only [] at h
      cases hc : createBusinessCard env (cardPayloadOf form t q) with
      | error e => rw [hc] at h; cases h
      | ok v =>
        rw [hc] at h
        simp only [pure, Except.pure, Except.ok.injEq, Prod.mk.injEq] at h
        obtain ⟨h1, h2⟩ := h
        subst h1
        exact ⟨q, rfl, hc, h2.symm⟩

theorem logoTry_ok {env : Env} {form : LogoForm} {c : Canvas}
    {effs : List Eff} (h : logoTry env form = .ok (c, effs)) :
    createLogo env (logoPayloadOf form) = .ok c ∧
      effs = [Eff.fontsLoad (fontSpec 700 58 DISPLAY_FONT),
              Eff.fontsLoad (fontSpec 500 20 BODY_FONT),
              Eff.render c] := by
  unfold logoTry at h
  cases hf : env.fontsReady with
  | error e => rw [hf] at h; cases h
  | ok u =>
    rw [hf] at h
    simp only [bind, Except.bind] at h
    cases hc : createLogo env (logoPayloadOf form) with
    | error e => rw [hc] at h; cases h
    | ok v =>
      rw [hc] at h
      simp only [pure, Except.pure, Except.ok.injEq, Prod.mk.injEq] at h
      obtain ⟨h1, h2⟩ := h
      subst h1
      exact ⟨rfl, h2.symm⟩

theorem posterTemplateStep_ok {env : Env} {t0 : String} {qs : ℚ} {b tg : String}
    {li : Option Unit} {t : PosterTemplate} {r : PosterResult} {effs : List Eff}
    (h : posterTemplateStep env t0 qs b tg li t = .ok (r, effs)) :
    ∃ q c, env.qrEncode t0 qs t.palette.qrDark t.palette.qrLight = .ok q ∧
      createPoster env
        { template := t, brandName := b, tagline := tg, url := t0,
          qrSize := qs, qrDataUrl := q, logoImage := li } = .ok c ∧
      r = { id := t.id, name := t.name, description := t.description, posterUrl := c } ∧
      effs = [Eff.qrEncode t0 qs t.palette.qrDark t.palette.qrLight, Eff.render c] := by
  unfold posterTemplateStep at h
  simp only [bind, Except.bind] at h
  cases hq : env.qrEncode t0 qs t.palette.qrDark t.palette.qrLight with
  | error e => rw [hq] at h; cases h
  | ok q =>
    rw [hq] at h
    simp only [] at h
    cases hc : createPoster env
        { template := t, brandName := b, tagline := tg, url := t0,
          qrSize := qs, qrDataUrl := q, logoImage := li } with
    | error e => rw [hc] at h; cases h
    | ok v =>
      rw [hc] at h
      simp only [pure, Except.pure, Except.ok.injEq, Prod.mk.injEq] at h
      obtain ⟨h1, h2⟩ := h
      exact ⟨q, v, rfl, hc, h1.symm, h2.symm⟩

theorem posterTry_ok {env : Env} {form : PosterForm} {t0 : String}
    {rs : List PosterResult} {effs : List Eff}
    (h : posterTry env form t0 = .ok (rs, effs)) :
    ∃ steps, posterSteps env form t0 = .ok steps ∧
      rs = steps.map Prod.fst ∧
      effs = posterFontsEffs ++ (steps.map Prod.snd).flatten := by
  unfold posterTry at h
  cases hf : env.fontsReady with
  | error e => rw [hf] at h; cases h
  | ok u =>
    rw [hf] at h
    simp only [bind, Except.bind] at h
    cases hlo : form.logoUrl with
    | none =>
      rw [hlo] at h
      simp only [pure, Except.pure] at h
      cases hs : posterSteps env form t0 with
      | error e => rw [hs] at h; cases h
      | ok steps =>
        rw [hs] at h
        simp only [Except.ok.injEq, Prod.mk.injEq] at h
        obtain ⟨ha, hb⟩ := h
        exact ⟨steps, rfl, ha.symm, hb.symm⟩
    | some src =>
      rw [hlo] at h
      simp only [] at h
      cases hli : env.loadImg src with
      | error e => rw [hli] at h; cases h
      | ok u2 =>
        rw [hli] at h
        simp only [pure, Except.pure] at h
        cases hs : posterSteps env form t0 with
        | error e => rw [hs] at h; cases h
        | ok steps =>
          rw [hs] at h
          simp only [Except.ok.injEq, Prod.mk.injEq] at h
          obtain ⟨ha, hb⟩ := h
          exact ⟨steps, rfl, ha.symm, hb.symm⟩

/-! ### Lemmas about the string primitives -/

theorem upper_of_hexDigit (c : Char) (h : isHexDigit c = true) :
    isUpperHexDigit (jsToUpperChar c) = true := by
  simp only [isHexDigit, Bool.or_eq_true, Bool.and_eq_true, decide_eq_true_eq] at h
  simp only [jsToUpperChar, isUpperHexDigit, Bool.or_eq_true, Bool.and_eq_true,
    decide_eq_true_eq]
  rcases h with (⟨h1, h2⟩ | ⟨h1, h2⟩) | ⟨h1, h2⟩
  · rw [if_neg (by omega)]; omega
  · rw [if_pos (by omega)]
    have hn : 65 ≤ c.toNat - 32 ∧ c.toNat - 32 ≤ 70 := by omega
    set n := c.toNat - 32 with hdef
    obtain ⟨ha, hb⟩ := hn
    have : (Char.ofNat n).toNat = n := by interval_cases n <;> decide
    omega
  · rw [if_neg (by omega)]; omega

theorem upperHexTest_jsToUpperCase (s : String) (h : hexPatternTest s = true) :
    upperHexTest (jsToUpperCase s) = true := by
  rcases s with ⟨data⟩
  match data with
  | [] => simp [hexPatternTest] at h
  | c :: rest =>
    simp only [hexPatternTest, Bool.and_eq_true, beq_iff_eq, List.all_eq_true] at h
    obtain ⟨⟨hc, hlen⟩, hall⟩ := h
    subst hc
    have hhash : jsToUpperChar '#' = '#' := by decide
    simp only [jsToUpperCase, upperHexTest, List.map_cons, hhash, Bool.and_eq_true,
      beq_iff_eq, List.length_map, List.all_eq_true]
    refine ⟨⟨trivial, hlen⟩, ?_⟩
    intro x hx
    obtain ⟨y, hy, rfl⟩ := List.mem_map.mp hx
    exact upper_of_hexDigit y (hall y hy)


/-! ### Pointwise predicates over the drawing traces -/

theorem all_map_of_forall {α β : Type} (l : List α) (f : α → β) (pred : β → Bool)
    (h : ∀ a, pred (f a) = true) : (l.map f).all pred = true := by
  rw [List.all_eq_true]
  intro x hx
  obtain ⟨a, _, rfl⟩ := List.mem_map.mp hx
  exact h a

theorem drawFittedText_all {pred : CanvasOp → Bool}
    (m : String → String → ℚ) (t : String) (mw : ℚ) (fs : ℤ) (ff : String) (fw : ℤ)
    (x y : ℚ) (col al : String)
    (h1 : pred (CanvasOp.setTextAlign al) = true)
    (h2 : pred (CanvasOp.setTextBaseline "alphabetic") = true)
    (h3 : pred (CanvasOp.setFillColor col) = true)
    (h4 : ∀ f, pred (CanvasOp.setFont f) = true)
    (h5 : pred (CanvasOp.fillText t x y) = true) :
    (drawFittedText m t mw fs ff fw x y col al).all pred = true := by
  unfold drawFittedText
  simp only [List.all_cons, List.all_append, h1, h2, h3, h5, Bool.true_and,
    Bool.and_true, List.all_nil,
    all_map_of_forall _ _ pred (fun s => h4 (fontSpec fw s ff))]

theorem drawFittedTextPoster_all {pred : CanvasOp → Bool}
    (m : String → String → ℚ) (t : String) (mw : ℚ) (fs : ℤ) (ff : String) (fw : ℤ)
    (x y : ℚ) (col : String)
    (h1 : pred (CanvasOp.setTextAlign "center") = true)
    (h3 : pred (CanvasOp.setFillColor col) = true)
    (h4 : ∀ f, pred (CanvasOp.setFont f) = true)
    (h5 : pred (CanvasOp.fillText t x y) = true) :
    (drawFittedTextPoster m t mw fs ff fw x y col).all pred = true := by
  unfold drawFittedTextPoster
  simp only [List.all_cons, List.all_append, h1, h3, h5, Bool.true_and,
    Bool.and_true, List.all_nil,
    all_map_of_forall _ _ pred (fun s => h4 (fontSpec fw s ff))]

theorem drawFittedText_noResize (m : String → String → ℚ) (t : String) (mw : ℚ)
    (fs : ℤ) (ff : String) (fw : ℤ) (x y : ℚ) (col al : String) :
    (drawFittedText m t mw fs ff fw x y col al).all (fun op => !op.isResize) = true :=
  drawFittedText_all m t mw fs ff fw x y col al rfl rfl rfl (fun _ => rfl) rfl

theorem drawFittedTextPoster_noResize (m : String → String → ℚ) (t : String) (mw : ℚ)
    (fs : ℤ) (ff : String) (fw : ℤ) (x y : ℚ) (col : String) :
    (drawFittedTextPoster m t mw fs ff fw x y col).all (fun op => !op.isResize) = true :=
  drawFittedTextPoster_all m t mw fs ff fw x y col rfl rfl (fun _ => rfl) rfl

theorem drawFittedText_qrSquare (m : String → String → ℚ) (t : String) (mw : ℚ)
    (fs : ℤ) (ff : String) (fw : ℤ) (x y : ℚ) (col al : String) :
    (drawFittedText m t mw fs ff fw x y col al).all CanvasOp.qrSquare = true :=
  drawFittedText_all m t mw fs ff fw x y col al rfl rfl rfl (fun _ => rfl) rfl

theorem drawFittedTextPoster_qrSquare (m : String → String → ℚ) (t : String) (mw : ℚ)
    (fs : ℤ) (ff : String) (fw : ℤ) (x y : ℚ) (col : String) :
    (drawFittedTextPoster m t mw fs ff fw x y col).all CanvasOp.qrSquare = true :=
  drawFittedTextPoster_all m t mw fs ff fw x y col rfl rfl (fun _ => rfl) rfl

theorem drawRoundedRect_noResize (x y w h r : ℚ) :
    (drawRoundedRect x y w h r).all (fun op => !op.isResize) = true := by
  unfold drawRoundedRect
  simp [CanvasOp.isResize]

theorem drawRoundedRect_qrSquare (x y w h r : ℚ) :
    (drawRoundedRect x y w h r).all CanvasOp.qrSquare = true := by
  unfold drawRoundedRect
  simp [CanvasOp.qrSquare]

theorem posterOps_noResize (m : String → String → ℚ) (p : PosterPayload) :
    (posterOps m p).all (fun op => !op.isResize) = true := by
  unfold posterOps
  cases p.logoImage <;>
    (simp only [List.all_append, List.all_cons, List.all_nil, Bool.and_eq_true]
     repeat' apply And.intro) <;>
    first
      | trivial
      | exact drawFittedTextPoster_noResize _ _ _ _ _ _ _ _ _
      | exact drawRoundedRect_noResize _ _ _ _ _

theorem bannerOps_noResize (m : String → String → ℚ) (p : BannerPayload) :
    (bannerOps m p).all (fun op => !op.isResize) = true := by
  unfold bannerOps
  simp only [List.all_append, List.all_cons, List.all_nil, Bool.and_eq_true]
  repeat' apply And.intro
  all_goals
    first
      | trivial
      | exact drawFittedText_noResize _ _ _ _ _ _ _ _ _ _
      | exact drawRoundedRect_noResize _ _ _ _ _

theorem cardOps_noResize (m : String → String → ℚ) (p : CardPayload) :
    (cardOps m p).all (fun op => !op.isResize) = true := by
  unfold cardOps
  simp only [List.all_append, List.all_cons, List.all_nil, Bool.and_eq_true]
  repeat' apply And.intro
  all_goals
    first
      | trivial
      | exact drawFittedText_noResize _ _ _ _ _ _ _ _ _ _
      | exact drawRoundedRect_noResize _ _ _ _ _

theorem logoOps_noResize (m : String → String → ℚ) (p : LogoPayload) :
    (logoOps m p).all (fun op => !op.isResize) = true := by
  unfold logoOps
  cases p.layout <;> cases p.tone <;>
    (simp only [List.all_append, List.all_cons, List.all_nil, Bool.and_eq_true]
     repeat' apply And.intro) <;>
    first
      | trivial
      | exact drawFittedText_noResize _ _ _ _ _ _ _ _ _ _
      | (split <;> rfl)

theorem posterOps_qrSquare (m : String → String → ℚ) (p : PosterPayload) :
    (posterOps m p).all CanvasOp.qrSquare = true := by
  unfold posterOps
  cases p.logoImage <;>
    (simp only [List.all_append, List.all_cons, List.all_nil, Bool.and_eq_true]
     repeat' apply And.intro) <;>
    first
      | trivial
      | exact drawFittedTextPoster_qrSquare _ _ _ _ _ _ _ _ _
      | exact drawRoundedRect_qrSquare _ _ _ _ _
      | simp [CanvasOp.qrSquare]

theorem bannerOps_qrSquare (m : String → String → ℚ) (p : BannerPayload) :
    (bannerOps m p).all CanvasOp.qrSquare = true := by
  unfold bannerOps
  simp only [List.all_append, List.all_cons, List.all_nil, Bool.and_eq_true]
  repeat' apply And.intro
  all_goals
    first
      | trivial
      | exact drawFittedText_qrSquare _ _ _ _ _ _ _ _ _ _
      | exact drawRoundedRect_qrSquare _ _ _ _ _
      | simp [CanvasOp.qrSquare]

theorem cardOps_qrSquare (m : String → String → ℚ) (p : CardPayload) :
    (cardOps m p).all CanvasOp.qrSquare = true := by
  unfold cardOps
  simp only [List.all_append, List.all_cons, List.all_nil, Bool.and_eq_true]
  repeat' apply And.intro
  all_goals
    first
      | trivial
      | exact drawFittedText_qrSquare _ _ _ _ _ _ _ _ _ _
      | exact drawRoundedRect_qrSquare _ _ _ _ _
      | simp [CanvasOp.qrSquare]

theorem logoOps_qrSquare (m : String → String → ℚ) (p : LogoPayload) :
    (logoOps m p).all CanvasOp.qrSquare = true := by
  unfold logoOps
  cases p.layout <;> cases p.tone <;>
    (simp only [List.all_append, List.all_cons, List.all_nil, Bool.and_eq_true]
     repeat' apply And.intro) <;>
    first
      | trivial
      | exact drawFittedText_qrSquare _ _ _ _ _ _ _ _ _ _
      | (split <;> rfl)

/-! ### C3: fixed canvas dimensions -/

/-- C3: the composite canvas of each generator has fixed pixel dimensions
independent of user input, 1200 by 800 for the poster, 1600 by 600 for the
banner, 1050 by 600 for the business card and 1000 by 600 for the logo, and
no operation in any drawing trace between creation and PNG export changes
these dimensions. -/
theorem canvas_dims_fixed (env : Env) (pp : PosterPayload) (bp : BannerPayload)
    (cp : CardPayload) (lp : LogoPayload) (c₁ c₂ c₃ c₄ : Canvas)
    (h₁ : createPoster env pp = .ok c₁) (h₂ : createBanner env bp = .ok c₂)
    (h₃ : createBusinessCard env cp = .ok c₃) (h₄ : createLogo env lp = .ok c₄) :
    (c₁.width = 1200 ∧ c₁.height = 800 ∧ (c₁.ops.all fun op => !op.isResize) = true) ∧
    (c₂.width = 1600 ∧ c₂.height = 600 ∧ (c₂.ops.all fun op => !op.isResize) = true) ∧
    (c₃.width = 1050 ∧ c₃.height = 600 ∧ (c₃.ops.all fun op => !op.isResize) = true) ∧
    (c₄.width = 1000 ∧ c₄.height = 600 ∧ (c₄.ops.all fun op => !op.isResize) = true) := by
  obtain rfl := createPoster_ok h₁
  obtain rfl := createBanner_ok h₂
  obtain rfl := createBusinessCard_ok h₃
  obtain rfl := createLogo_ok h₄
  exact ⟨⟨rfl, rfl, posterOps_noResize _ _⟩, ⟨rfl, rfl, bannerOps_noResize _ _⟩,
    ⟨rfl, rfl, cardOps_noResize _ _⟩, ⟨rfl, rfl, logoOps_noResize _ _⟩⟩

/-- Witness for C3 at the concrete fixtures. -/
theorem canvas_dims_fixed_witness :
    createPoster env₀ posterPayload₀ = .ok posterC₀ ∧
    createBanner env₀ bannerPayload₀ = .ok bannerC₀ ∧
    createBusinessCard env₀ cardPayload₀ = .ok cardC₀ ∧
    createLogo env₀ logoPayload₀ = .ok logoC₀ ∧
    posterC₀.width = 1200 ∧ bannerC₀.width = 1600 ∧ cardC₀.width = 1050 ∧
    logoC₀.width = 1000 := by
  have h := canvas_dims_fixed env₀ posterPayload₀ bannerPayload₀ cardPayload₀
    logoPayload₀ posterC₀ bannerC₀ cardC₀ logoC₀ rfl rfl rfl rfl
  exact ⟨rfl, rfl, rfl, rfl, h.1.1, h.2.1.1, h.2.2.1.1, h.2.2.2.1⟩

/-! ### C6: the QR bitmap is encoded from the trimmed URL and drawn square -/

/-- C6: the QR data URL is produced by the third-party encoder from the
trimmed URL string, and at every drawImage of the QR image the destination
width equals the destination height. -/
theorem qr_drawn_square (env : Env) (pp : PosterPayload) (bp : BannerPayload)
    (cp : CardPayload) (lp : LogoPayload) (c₁ c₂ c₃ c₄ : Canvas)
    (h₁ : createPoster env pp = .ok c₁) (h₂ : createBanner env bp = .ok c₂)
    (h₃ : createBusinessCard env cp = .ok c₃) (h₄ : createLogo env lp = .ok c₄) :
    c₁.ops.all CanvasOp.qrSquare = true ∧
    c₂.ops.all CanvasOp.qrSquare = true ∧
    c₃.ops.all CanvasOp.qrSquare = true ∧
    c₄.ops.all CanvasOp.qrSquare = true ∧
    (∀ (form : BannerForm) (prev : BannerPage) (u : String) (w : ℚ) (d l : String),
      Eff.qrEncode u w d l ∈ (bannerHandleSubmit env form prev).snd →
        u = jsTrim form.url) ∧
    (∀ (form : CardForm) (prev : CardPage) (u : String) (w : ℚ) (d l : String),
      Eff.qrEncode u w d l ∈ (cardHandleSubmit env form prev).snd →
        u = jsTrim form.website) := by
  obtain rfl := createPoster_ok h₁
  obtain rfl := createBanner_ok h₂
  obtain rfl := createBusinessCard_ok h₃
  obtain rfl := createLogo_ok h₄
  refine ⟨posterOps_qrSquare _ _, bannerOps_qrSquare _ _, cardOps_qrSquare _ _,
    logoOps_qrSquare _ _, ?_, ?_⟩
  · intro form prev u w d l hmem
    unfold bannerHandleSubmit at hmem
    by_cases hv : jsTrim form.url = ""
    · rw [if_pos hv] at hmem
      simp at hmem
    · rw [if_neg hv] at hmem
      cases hb : bannerTry env form (jsTrim form.url) with
      | error e =>
        rw [hb] at hmem
        simp at hmem
      | ok r =>
        rw [hb] at hmem
        obtain ⟨c, effs⟩ := r
        obtain ⟨q, _, _, heffs⟩ := bannerTry_ok hb
        subst heffs
        simp only [List.mem_cons, List.not_mem_nil, or_false] at hmem
        rcases hmem with h | h | h | h <;> first | cases h; rfl | cases h
  · intro form prev u w d l hmem
    unfold cardHandleSubmit at hmem
    by_cases hv : jsTrim form.website = ""
    · rw [if_pos hv] at hmem
      simp at hmem
    · rw [if_neg hv] at hmem
      cases hb : cardTry env form (jsTrim form.website) with
      | error e =>
        rw [hb] at hmem
        simp at hmem
      | ok r =>
        rw [hb] at hmem
        obtain ⟨c, effs⟩ := r
        obtain ⟨q, _, _, heffs⟩ := cardTry_ok hb
        subst heffs
        simp only [List.mem_cons, List.not_mem_nil, or_false] at hmem
        rcases hmem with h | h | h | h <;> first | cases h; rfl | cases h

/-- Witness for C6 at the concrete fixtures. -/
theorem qr_drawn_square_witness :
    createBanner env₀ bannerPayload₀ = .ok bannerC₀ ∧
    bannerC₀.ops.all CanvasOp.qrSquare = true := by
  have h := qr_drawn_square env₀ posterPayload₀ bannerPayload₀ cardPayload₀
    logoPayload₀ posterC₀ bannerC₀ cardC₀ logoC₀ rfl rfl rfl rfl
  exact ⟨rfl, h.2.1⟩

/-! ### Structure of the poster steps -/

theorem posterOps_concat (m : String → String → ℚ) (p : PosterPayload) :
    ∃ pre, posterOps m p = pre ++ [CanvasOp.exportPNG "image/png"] := by
  unfold posterOps
  exact ⟨_, rfl⟩

theorem bannerOps_concat (m : String → String → ℚ) (p : BannerPayload) :
    ∃ pre, bannerOps m p = pre ++ [CanvasOp.exportPNG "image/png"] := by
  unfold bannerOps
  exact ⟨_, rfl⟩

theorem cardOps_concat (m : String → String → ℚ) (p : CardPayload) :
    ∃ pre, cardOps m p = pre ++ [CanvasOp.exportPNG "image/png"] := by
  unfold cardOps
  exact ⟨_, rfl⟩

theorem logoOps_concat (m : String → String → ℚ) (p : LogoPayload) :
    ∃ pre, logoOps m p = pre ++ [CanvasOp.exportPNG "image/png"] := by
  unfold logoOps
  exact ⟨_, rfl⟩

theorem mapM3_ok {α β : Type} {f : α → Except Unit β} {a b c : α} {out : List β}
    (h : List.mapM f [a, b, c] = .ok out) :
    ∃ x y z, out = [x, y, z] ∧ f a = .ok x ∧ f b = .ok y ∧ f c = .ok z := by
  simp only [List.mapM_cons, List.mapM_nil, bind, Except.bind, pure, Except.pure] at h
  cases ha : f a with
  | error e => rw [ha] at h; cases h
  | ok x =>
    rw [ha] at h
    simp only [] at h
    cases hb : f b with
    | error e => rw [hb] at h; cases h
    | ok y =>
      rw [hb] at h
      simp only [] at h
      cases hc : f c with
      | error e => rw [hc] at h; cases h
      | ok z =>
        rw [hc] at h
        simp only [Except.ok.injEq] at h
        exact ⟨x, y, z, h.symm, rfl, rfl, rfl⟩

theorem posterSteps_ok_shape {env : Env} {form : PosterForm} {t0 : String}
    {steps : List (PosterResult × List Eff)}
    (h : posterSteps env form t0 = .ok steps) :
    ∃ s1 s2 s3, steps = [s1, s2, s3] ∧
      ∀ s ∈ steps, ∃ w d l c, s.snd = [Eff.qrEncode t0 w d l, Eff.render c] ∧
        ∃ pre, c.ops = pre ++ [CanvasOp.exportPNG "image/png"] := by
  unfold posterSteps buildTemplates at h
  obtain ⟨x, y, z, hout, hx, hy, hz⟩ := mapM3_ok h
  subst hout
  refine ⟨x, y, z, rfl, ?_⟩
  intro s hs
  simp only [List.mem_cons, List.not_mem_nil, or_false] at hs
  have get : ∀ {t : PosterTemplate} {r : PosterResult} {effs : List Eff},
      posterTemplateStep env t0 (posterQrSize form.size)
        (orDefault form.brandName "Your Brand") (orDefault form.tagline "Scan to connect")
        (form.logoUrl.map fun _ => ()) t = .ok (r, effs) →
      ∃ w d l c, effs = [Eff.qrEncode t0 w d l, Eff.render c] ∧
        ∃ pre, c.ops = pre ++ [CanvasOp.exportPNG "image/png"] := by
    intro t r effs hstep
    obtain ⟨q, c, _, hcreate, _, heffs⟩ := posterTemplateStep_ok hstep
    obtain rfl := createPoster_ok hcreate
    exact ⟨_, _, _, _, heffs, posterOps_concat env.measure _⟩
  rcases hs with rfl | rfl | rfl
  · obtain ⟨w, d, l, c, he, hp⟩ := get hx
    exact ⟨w, d, l, c, he, hp⟩
  · obtain ⟨w, d, l, c, he, hp⟩ := get hy
    exact ⟨w, d, l, c, he, hp⟩
  · obtain ⟨w, d, l, c, he, hp⟩ := get hz
    exact ⟨w, d, l, c, he, hp⟩

/-! ### C4: single catch-all error handling -/

/-- C4: on each page, once generation begins, the loading flag ends false in
every case, and whenever the try block throws, the handler publishes the
fixed error message and leaves the result state cleared (empty list for the
poster page, null for the others), so no partial output is shown. -/
theorem catch_all_error_handling (env : Env) (pf : PosterForm) (bf : BannerForm)
    (cf : CardForm) (lf : LogoForm) (prevP : PosterPage) (prevB : BannerPage)
    (prevC : CardPage) (prevL : LogoPage) :
    (jsTrim pf.url ≠ "" →
      (posterHandleSubmit env pf prevP).fst.loading = false ∧
      (posterTry env pf (jsTrim pf.url) = .error () →
        (posterHandleSubmit env pf prevP).fst =
          ⟨[], false, "Could not generate branded posters. Please try again."⟩)) ∧
    (jsTrim bf.url ≠ "" →
      (bannerHandleSubmit env bf prevB).fst.loading = false ∧
      (bannerTry env bf (jsTrim bf.url) = .error () →
        (bannerHandleSubmit env bf prevB).fst =
          ⟨none, false, "Could not generate the banner. Please try again."⟩)) ∧
    (jsTrim cf.website ≠ "" →
      (cardHandleSubmit env cf prevC).fst.loading = false ∧
      (cardTry env cf (jsTrim cf.website) = .error () →
        (cardHandleSubmit env cf prevC).fst =
          ⟨none, false, "Could not generate the business card. Please try again."⟩)) ∧
    ((logoHandleSubmit env lf prevL).fst.loading = false ∧
      (logoTry env lf = .error () →
        (logoHandleSubmit env lf prevL).fst =
          ⟨none, false, "Could not generate the logo. Please try again."⟩)) := by
  refine ⟨?_, ?_, ?_, ?_⟩
  · intro hv
    unfold posterHandleSubmit
    rw [if_neg hv]
    cases ht : posterTry env pf (jsTrim pf.url) with
    | ok r =>
      obtain ⟨rs, effs⟩ := r
      exact ⟨rfl, fun herr => by cases herr⟩
    | error e => exact ⟨rfl, fun _ => rfl⟩
  · intro hv
    unfold bannerHandleSubmit
    rw [if_neg hv]
    cases ht : bannerTry env bf (jsTrim bf.url) with
    | ok r =>
      obtain ⟨c, effs⟩ := r
      exact ⟨rfl, fun herr => by cases herr⟩
    | error e => exact ⟨rfl, fun _ => rfl⟩
  · intro hv
    unfold cardHandleSubmit
    rw [if_neg hv]
    cases ht : cardTry env cf (jsTrim cf.website) with
    | ok r =>
      obtain ⟨c, effs⟩ := r
      exact ⟨rfl, fun herr => by cases herr⟩
    | error e => exact ⟨rfl, fun _ => rfl⟩
  · unfold logoHandleSubmit
    cases ht : logoTry env lf with
    | ok r =>
      obtain ⟨c, effs⟩ := r
      exact ⟨rfl, fun herr => by cases herr⟩
    | error e => exact ⟨rfl, fun _ => rfl⟩

/-- Witness for C4: with no 2d context every try block throws, and the final
states show the fixed error messages with cleared results. -/
theorem catch_all_error_handling_witness :
    jsTrim posterForm₀.url ≠ "" ∧
    (posterHandleSubmit envBad posterForm₀ ⟨[], false, ""⟩).fst =
      ⟨[], false, "Could not generate branded posters. Please try again."⟩ ∧
    (bannerHandleSubmit envBad bannerForm₀ ⟨none, false, ""⟩).fst =
      ⟨none, false, "Could not generate the banner. Please try again."⟩ ∧
    (logoHandleSubmit envBad logoForm₀ ⟨none, false, ""⟩).fst =
      ⟨none, false, "Could not generate the logo. Please try again."⟩ := by
  have h := catch_all_error_handling envBad posterForm₀ bannerForm₀ cardForm₀
    logoForm₀ ⟨[], false, ""⟩ ⟨none, false, ""⟩ ⟨none, false, ""⟩ ⟨none, false, ""⟩
  exact ⟨by decide, (h.1 (by decide)).2 rfl, (h.2.1 (by decide)).2 rfl, h.2.2.2.2 rfl⟩

/-! ### C7: validation is exactly the nonempty-trim check on the URL -/

/-- C7: on the poster, banner and card pages the sole validation is that the
URL field trims nonempty: when it trims empty the handler sets the fixed
validation message and returns with previous results, loading flag and
effects untouched; when nonempty and the try block succeeds, generation
proceeded with the trimmed URL, which is the string handed to the QR
encoder. -/
theorem url_validation_only (env : Env) (pf : PosterForm) (bf : BannerForm)
    (cf : CardForm) (prevP : PosterPage) (prevB : BannerPage) (prevC : CardPage) :
    (jsTrim pf.url = "" →
      posterHandleSubmit env pf prevP =
        ({ prevP with error := "Please enter a URL to generate posters." }, [])) ∧
    (jsTrim pf.url ≠ "" → ∀ rs effs, posterTry env pf (jsTrim pf.url) = .ok (rs, effs) →
      posterHandleSubmit env pf prevP = (⟨rs, false, ""⟩, effs) ∧
      ∃ w d l, Eff.qrEncode (jsTrim pf.url) w d l ∈ effs) ∧
    (jsTrim bf.url = "" →
      bannerHandleSubmit env bf prevB =
        ({ prevB with error := "Please enter a URL to embed in the banner QR code." }, [])) ∧
    (jsTrim bf.url ≠ "" → ∀ c effs, bannerTry env bf (jsTrim bf.url) = .ok (c, effs) →
      bannerHandleSubmit env bf prevB = (⟨some c, false, ""⟩, effs) ∧
      ∃ w d l, Eff.qrEncode (jsTrim bf.url) w d l ∈ effs) ∧
    (jsTrim cf.website = "" →
      cardHandleSubmit env cf prevC =
        ({ prevC with error := "Please enter a website URL to generate a QR code." }, [])) ∧
    (jsTrim cf.website ≠ "" → ∀ c effs, cardTry env cf (jsTrim cf.website) = .ok (c, effs) →
      cardHandleSubmit env cf prevC = (⟨some c, false, ""⟩, effs) ∧
      ∃ w d l, Eff.qrEncode (jsTrim cf.website) w d l ∈ effs) := by
  refine ⟨?_, ?_, ?_, ?_, ?_, ?_⟩
  · intro hv
    unfold posterHandleSubmit
    rw [if_pos hv]
  · intro hv rs effs hok
    unfold posterHandleSubmit
    rw [if_neg hv, hok]
    refine ⟨rfl, ?_⟩
    obtain ⟨steps, hsteps, hrs, heffs⟩ := posterTry_ok hok
    obtain ⟨s1, s2, s3, hsh, hall⟩ := posterSteps_ok_shape hsteps
    subst hsh
    obtain ⟨w, d, l, c, hs1, _⟩ := hall s1 (by simp)
    refine ⟨w, d, l, ?_⟩
    rw [heffs]
    simp [hs1]
  · intro hv
    unfold bannerHandleSubmit
    rw [if_pos hv]
  · intro hv c effs hok
    unfold bannerHandleSubmit
    rw [if_neg hv, hok]
    refine ⟨rfl, ?_⟩
    obtain ⟨q, _, _, heffs⟩ := bannerTry_ok hok
    subst heffs
    exact ⟨240, "#0F172A", "#FFFFFF", by simp⟩
  · intro hv
    unfold cardHandleSubmit
    rw [if_pos hv]
  · intro hv c effs hok
    unfold cardHandleSubmit
    rw [if_neg hv, hok]
    refine ⟨rfl, ?_⟩
    obtain ⟨q, _, _, heffs⟩ := cardTry_ok hok
    subst heffs
    exact ⟨240, "#0F172A", "#FFFFFF", by simp⟩

/-- Witness for C7: an all-whitespace URL is rejected with the fixed message
and previous state kept; the fixed nonempty URL goes through to the encoder. -/
theorem url_validation_only_witness :
    jsTrim "   " = "" ∧
    bannerHandleSubmit env₀ { bannerForm₀ with url := "   " } ⟨none, true, "old"⟩ =
      (⟨none, true, "Please enter a URL to embed in the banner QR code."⟩, []) ∧
    jsTrim bannerForm₀.url ≠ "" ∧
    bannerHandleSubmit env₀ bannerForm₀ ⟨none, false, ""⟩ =
      (⟨some bannerRun₀.fst, false, ""⟩, bannerRun₀.snd) := by
  have h1 := url_validation_only env₀ posterForm₀ { bannerForm₀ with url := "   " }
    cardForm₀ ⟨[], false, ""⟩ ⟨none, true, "old"⟩ ⟨none, false, ""⟩
  have h2 := url_validation_only env₀ posterForm₀ bannerForm₀ cardForm₀
    ⟨[], false, ""⟩ ⟨none, false, ""⟩ ⟨none, false, ""⟩
  exact ⟨by decide, h1.2.2.1 (by decide), by decide,
    (h2.2.2.2.1 (by decide) bannerRun₀.fst bannerRun₀.snd rfl).1⟩

/-! ### C5: the compositing routines are deterministic -/

/-- C5: two runs of any generator with the same payload and the same
text-measurement oracle that both produce a canvas produce the same trace of
drawing operations, hence the same exported PNG under any rendering
function. -/
theorem compositing_deterministic (render : Canvas → String) (env₁ env₂ : Env)
    (hm : env₁.measure = env₂.measure) (pp : PosterPayload) (bp : BannerPayload)
    (cp : CardPayload) (lp : LogoPayload) (c₁ c₂ d₁ d₂ e₁ e₂ f₁ f₂ : Canvas)
    (hp₁ : createPoster env₁ pp = .ok c₁) (hp₂ : createPoster env₂ pp = .ok c₂)
    (hb₁ : createBanner env₁ bp = .ok d₁) (hb₂ : createBanner env₂ bp = .ok d₂)
    (hc₁ : createBusinessCard env₁ cp = .ok e₁)
    (hc₂ : createBusinessCard env₂ cp = .ok e₂)
    (hl₁ : createLogo env₁ lp = .ok f₁) (hl₂ : createLogo env₂ lp = .ok f₂) :
    (c₁ = c₂ ∧ render c₁ = render c₂) ∧ (d₁ = d₂ ∧ render d₁ = render d₂) ∧
    (e₁ = e₂ ∧ render e₁ = render e₂) ∧ (f₁ = f₂ ∧ render f₁ = render f₂) := by
  obtain rfl := createPoster_ok hp₁
  obtain rfl := createPoster_ok hp₂
  obtain rfl := createBanner_ok hb₁
  obtain rfl := createBanner_ok hb₂
  obtain rfl := createBusinessCard_ok hc₁
  obtain rfl := createBusinessCard_ok hc₂
  obtain rfl := createLogo_ok hl₁
  obtain rfl := createLogo_ok hl₂
  rw [hm]
  exact ⟨⟨rfl, rfl⟩, ⟨rfl, rfl⟩, ⟨rfl, rfl⟩, ⟨rfl, rfl⟩⟩

/-- Witness for C5 at the concrete fixtures. -/
theorem compositing_deterministic_witness :
    createPoster env₀ posterPayload₀ = .ok posterC₀ ∧ posterC₀ = posterC₀ :=
  ⟨rfl, ((compositing_deterministic (fun _ => "png") env₀ env₀ rfl posterPayload₀
    bannerPayload₀ cardPayload₀ logoPayload₀ posterC₀ posterC₀ bannerC₀ bannerC₀
    cardC₀ cardC₀ logoC₀ logoC₀ rfl rfl rfl rfl rfl rfl rfl rfl).1).1⟩

/-! ### C8: normalizeHex always yields a well-formed hex color -/

theorem normalizeHex_preserves (v f : String) (hf : upperHexTest f = true) :
    upperHexTest (normalizeHex v f) = true := by
  unfold normalizeHex
  by_cases hp : hexPatternTest (jsTrim v) = true
  · rw [if_pos hp]
    exact upperHexTest_jsToUpperCase _ hp
  · rw [if_neg hp]
    exact hf

/-- C8: normalizeHex returns the trimmed input uppercased exactly when the
trimmed input matches the hex pattern and the fallback unchanged otherwise;
whenever the fallback is a well-formed uppercase hex color the result is too,
and in particular the primary and accent colors handed to the drawing
payloads are always well-formed. -/
theorem normalizeHex_wellformed (value fallback : String) :
    (hexPatternTest (jsTrim value) = true →
      normalizeHex value fallback = jsToUpperCase (jsTrim value)) ∧
    (hexPatternTest (jsTrim value) = false → normalizeHex value fallback = fallback) ∧
    (upperHexTest fallback = true → upperHexTest (normalizeHex value fallback) = true) ∧
    upperHexTest (normalizeHex value DEFAULT_PRIMARY) = true ∧
    upperHexTest (normalizeHex value DEFAULT_ACCENT) = true ∧
    (∀ (form : BannerForm) (t q : String),
      upperHexTest (bannerPayloadOf form t q).primary = true ∧
      upperHexTest (bannerPayloadOf form t q).accent = true) ∧
    (∀ (form : CardForm) (t q : String),
      upperHexTest (cardPayloadOf form t q).primary = true ∧
      upperHexTest (cardPayloadOf form t q).accent = true) := by
  refine ⟨?_, ?_, normalizeHex_preserves value fallback,
    normalizeHex_preserves value DEFAULT_PRIMARY (by decide),
    normalizeHex_preserves value DEFAULT_ACCENT (by decide), ?_, ?_⟩
  · intro hp
    unfold normalizeHex
    rw [if_pos hp]
  · intro hp
    unfold normalizeHex
    rw [if_neg (by simp [hp])]
  · intro form t q
    exact ⟨normalizeHex_preserves form.primaryColor DEFAULT_PRIMARY (by decide),
      normalizeHex_preserves form.accentColor DEFAULT_ACCENT (by decide)⟩
  · intro form t q
    exact ⟨normalizeHex_preserves form.primaryColor DEFAULT_PRIMARY (by decide),
      normalizeHex_preserves form.accentColor DEFAULT_ACCENT (by decide)⟩

/-- Witness for C8: a lowercase match is uppercased; a non-match falls back. -/
theorem normalizeHex_wellformed_witness :
    hexPatternTest (jsTrim " #ab12cd ") = true ∧
    normalizeHex " #ab12cd " "#000000" = jsToUpperCase (jsTrim " #ab12cd ") ∧
    hexPatternTest (jsTrim "not a color") = false ∧
    normalizeHex "not a color" "#000000" = "#000000" := by
  refine ⟨by decide, (normalizeHex_wellformed " #ab12cd " "#000000").1 (by decide),
    by decide, (normalizeHex_wellformed "not a color" "#000000").2.1 (by decide)⟩

/-! ### C9: truncateText -/

/-- C9: for maxLength at least 3, truncateText returns the value itself
exactly when it has at most maxLength characters, and otherwise a string of
exactly maxLength characters whose first maxLength - 3 characters agree with
the value and whose last three characters are dots; hence the poster URL
caption never exceeds 52 characters. -/
theorem truncateText_spec (value : String) (maxLength : ℕ) (h : 3 ≤ maxLength) :
    (truncateText value maxLength = value ↔ value.data.length ≤ maxLength) ∧
    (maxLength < value.data.length →
      (truncateText value maxLength).data.length = maxLength ∧
      (truncateText value maxLength).data.take (maxLength - 3) =
        value.data.take (maxLength - 3) ∧
      (truncateText value maxLength).data.drop (maxLength - 3) = ['.', '.', '.']) ∧
    (∀ url : String, (truncateText url 52).data.length ≤ 52) := by
  have hlen : ∀ (v : String) (m : ℕ), 3 ≤ m → m < v.data.length →
      (truncateText v m).data.length = m := by
    intro v m hm hlt
    have hcond : ¬ (v.data.length ≤ m) := by omega
    rw [truncateText, if_neg hcond]
    show (v.data.take (m - 3) ++ ['.', '.', '.']).length = m
    simp only [List.length_append, List.length_take, List.length_cons, List.length_nil]
    omega
  refine ⟨?_, ?_, ?_⟩
  · constructor
    · intro heq
      by_contra hlt
      push_neg at hlt
      have := hlen value maxLength h hlt
      rw [heq] at this
      omega
    · intro hle
      rw [truncateText, if_pos hle]
  · intro hlt
    have hcond : ¬ (value.data.length ≤ maxLength) := by omega
    have htl : (value.data.take (maxLength - 3)).length = maxLength - 3 := by
      simp only [List.length_take]
      omega
    refine ⟨hlen value maxLength h hlt, ?_, ?_⟩
    · rw [truncateText, if_neg hcond]
      show (value.data.take (maxLength - 3) ++ ['.', '.', '.']).take (maxLength - 3) =
        value.data.take (maxLength - 3)
      rw [List.take_append_of_le_length (by omega), List.take_take]
      congr 1
      omega
    · rw [truncateText, if_neg hcond]
      show (value.data.take (maxLength - 3) ++ ['.', '.', '.']).drop (maxLength - 3) =
        ['.', '.', '.']
      nth_rewrite 1 [← htl]
      exact List.drop_left _ _
  · intro url
    by_cases hc : url.data.length ≤ 52
    · rw [truncateText, if_pos hc]
      omega
    · have := hlen url 52 (by omega) (by omega)
      omega

/-- Witness for C9 on a concrete overlong value. -/
theorem truncateText_spec_witness :
    3 ≤ 5 ∧ 5 < ("abcdefg" : String).data.length ∧
    (truncateText "abcdefg" 5).data.length = 5 := by
  refine ⟨by omega, by decide, ?_⟩
  exact ((truncateText_spec "abcdefg" 5 (by omega)).2.1 (by decide)).1

/-! ### C10: the drawFittedText shrink loop -/

theorem fitLoop_eq_getLast (fits : ℤ → Bool) (size₁ : ℤ) :
    fitLoop fits size₁ = (fitTrace fits size₁).getLast? := by
  have main : ∀ (n : ℕ) (size : ℤ), (size - 14).toNat = n →
      fitLoop fits size = (fitTrace fits size).getLast? := by
    intro n
    induction n using Nat.strong_induction_on with
    | _ n IH =>
    intro size hn
    rw [fitLoop, fitTrace]
    by_cases h : 14 < size
    · simp only [h, dif_pos]
      by_cases hf : fits size
      · simp [hf]
      · simp only [hf, Bool.false_eq_true, if_false]
        have hrec := IH ((size - 2) - 14).toNat (by omega) (size - 2) rfl
        rw [hrec]
        cases ht : fitTrace fits (size - 2) with
        | nil => simp
        | cons x xs =>
          simp only [List.getLast?_cons_cons]
          rw [List.getLast?_eq_getLast _ (by simp)]
    · simp [h]
  exact main _ size₁ rfl

theorem fitLoop_char (fits : ℤ → Bool) (size₀ : ℤ) (h0 : 14 < size₀) :
    ∃ s, fitLoop fits size₀ = some s ∧ InSeq size₀ s ∧ 14 < s ∧
      ((fits s = true ∧ ∀ s2, InSeq size₀ s2 → s < s2 → fits s2 = false) ∨
       (s ≤ 16 ∧ ∀ s2, InSeq size₀ s2 → 14 < s2 → fits s2 = false)) := by
  have main : ∀ (n : ℕ) (size : ℤ), (size - 14).toNat = n → 14 < size →
      ∃ s, fitLoop fits size = some s ∧ InSeq size s ∧ 14 < s ∧
        ((fits s = true ∧ ∀ s2, InSeq size s2 → s < s2 → fits s2 = false) ∨
         (s ≤ 16 ∧ ∀ s2, InSeq size s2 → 14 < s2 → fits s2 = false)) := by
    intro n
    induction n using Nat.strong_induction_on with
    | _ n IH =>
    intro size h0 hh
    rw [fitLoop]
    simp only [hh, dif_pos]
    by_cases hf : fits size
    · refine ⟨size, by simp [hf], ⟨0, by omega⟩, hh, Or.inl ⟨hf, ?_⟩⟩
      intro s2 ⟨k, hk⟩ hlt
      omega
    · by_cases h2 : 14 < size - 2
      · obtain ⟨s, hs, ⟨k, hk⟩, hs14, hcase⟩ :=
          IH ((size - 2) - 14).toNat (by omega) (size - 2) rfl h2
        refine ⟨s, ?_, ⟨k + 1, by push_cast; omega⟩, hs14, ?_⟩
        · rw [hs]
          simp [hf]
        · rcases hcase with ⟨hfits, hmax⟩ | ⟨hsmall, hnone⟩
          · left
            refine ⟨hfits, ?_⟩
            intro s2 ⟨j, hj⟩ hlt
            by_cases hj0 : j = 0
            · subst hj0
              simp only [Nat.cast_zero, mul_zero, sub_zero] at hj
              subst hj
              simpa using hf
            · refine hmax s2 ⟨j - 1, ?_⟩ hlt
              have : (1:ℤ) ≤ (j:ℤ) := by exact_mod_cast Nat.one_le_iff_ne_zero.mpr hj0
              push_cast
              omega
          · right
            refine ⟨hsmall, ?_⟩
            intro s2 ⟨j, hj⟩ h14
            by_cases hj0 : j = 0
            · subst hj0
              simp only [Nat.cast_zero, mul_zero, sub_zero] at hj
              subst hj
              simpa using hf
            · refine hnone s2 ⟨j - 1, ?_⟩ h14
              have : (1:ℤ) ≤ (j:ℤ) := by exact_mod_cast Nat.one_le_iff_ne_zero.mpr hj0
              push_cast
              omega
      · have hnone : fitLoop fits (size - 2) = none := by
          rw [fitLoop]
          simp [h2]
        refine ⟨size, by simp [hf, hnone], ⟨0, by omega⟩, hh,
          Or.inr ⟨by omega, ?_⟩⟩
        intro s2 ⟨j, hj⟩ h14
        have hj0 : j = 0 := by omega
        subst hj0
        simp only [Nat.cast_zero, mul_zero, sub_zero] at hj
        subst hj
        simpa using hf
  exact main _ size₀ rfl h0


/-- C10 (amended): the shrink loop of drawFittedText terminates, the font
left on the context is the last entry of the trace of assigned sizes, no
font is assigned when the starting size is at most 14, and otherwise the
size the text is drawn at is the largest size in the sequence fontSize,
fontSize - 2, and so on that exceeds 14 and fits within maxWidth, or, when
no tried size fits, the smallest size in that sequence that still exceeds
14 (15 or 16), rather than the first size at most 14. -/
theorem fitted_size_characterization (fits : ℤ → Bool) (size₀ : ℤ) :
    fitLoop fits size₀ = (fitTrace fits size₀).getLast? ∧
    (size₀ ≤ 14 → fitLoop fits size₀ = none) ∧
    (14 < size₀ → ∃ s, fitLoop fits size₀ = some s ∧ InSeq size₀ s ∧ 14 < s ∧
      ((fits s = true ∧ ∀ s2, InSeq size₀ s2 → s < s2 → fits s2 = false) ∨
       (s ≤ 16 ∧ ∀ s2, InSeq size₀ s2 → 14 < s2 → fits s2 = false))) := by
  refine ⟨fitLoop_eq_getLast fits size₀, ?_, fitLoop_char fits size₀⟩
  intro hle
  rw [fitLoop]
  simp [show ¬ (14 < size₀) from by omega]

/-- Counterexample for C10 as stated: with a text that never fits and
starting size 48, the loop leaves the font at 16, the smallest tried size
above 14, not at 14, the first sequence size at most 14. -/
theorem fitted_size_claim_false :
    fitLoop (fun _ => false) 48 = some 16 ∧ (16 : ℤ) ≠ 14 := by
  obtain ⟨s, hs, ⟨k, hk⟩, h14, hcase⟩ := fitLoop_char (fun _ => false) 48 (by norm_num)
  rcases hcase with ⟨hfits, _⟩ | ⟨h16, _⟩
  · simp at hfits
  · have hseq : s = 16 := by omega
    subst hseq
    exact ⟨hs, by norm_num⟩

/-- Witness for C10 at a concrete measurement oracle and starting size. -/
theorem fitted_size_characterization_witness :
    14 < (48 : ℤ) ∧
    (∃ s, fitLoop (fun s => decide (s ≤ 20)) 48 = some s ∧ InSeq 48 s ∧ 14 < s ∧
      (((fun s => decide (s ≤ 20)) s = true ∧
          ∀ s2, InSeq 48 s2 → s < s2 → (fun s => decide (s ≤ 20)) s2 = false) ∨
       (s ≤ 16 ∧ ∀ s2, InSeq 48 s2 → 14 < s2 →
          (fun s => decide (s ≤ 20)) s2 = false))) :=
  ⟨by norm_num, (fitted_size_characterization (fun s => decide (s ≤ 20)) 48).2.2
    (by norm_num)⟩

/-! ### C1 and C2: which pages embed a QR code, and the pipeline order -/

theorem drawFittedText_noDrawImage (m : String → String → ℚ) (t : String) (mw : ℚ)
    (fs : ℤ) (ff : String) (fw : ℤ) (x y : ℚ) (col al : String) :
    (drawFittedText m t mw fs ff fw x y col al).all (fun op => !op.isDrawImage) = true :=
  drawFittedText_all m t mw fs ff fw x y col al rfl rfl rfl (fun _ => rfl) rfl

theorem logoOps_noDrawImage (m : String → String → ℚ) (p : LogoPayload) :
    (logoOps m p).all (fun op => !op.isDrawImage) = true := by
  unfold logoOps
  cases p.layout <;> cases p.tone <;>
    (simp only [List.all_append, List.all_cons, List.all_nil, Bool.and_eq_true]
     repeat' apply And.intro) <;>
    first
      | trivial
      | exact drawFittedText_noDrawImage _ _ _ _ _ _ _ _ _ _
      | (split <;> rfl)

theorem posterOps_qr_mem (m : String → String → ℚ) (p : PosterPayload) :
    CanvasOp.drawImage (ImageRef.qr p.qrDataUrl)
      ((POSTER_WIDTH - (p.qrSize + 90)) / 2 + 45) (260 + 45) p.qrSize p.qrSize ∈
      posterOps m p := by
  unfold posterOps
  cases p.logoImage <;> simp [List.mem_append, List.mem_cons]

theorem bannerOps_qr_mem (m : String → String → ℚ) (p : BannerPayload) :
    CanvasOp.drawImage (ImageRef.qr p.qrDataUrl)
      (BANNER_WIDTH - 320 - 120 + (320 - 200) / 2) (130 + 50) 200 200 ∈
      bannerOps m p := by
  unfold bannerOps
  simp [List.mem_append, List.mem_cons]

theorem cardOps_qr_mem (m : String → String → ℚ) (p : CardPayload) :
    CanvasOp.drawImage (ImageRef.qr p.qrDataUrl)
      (70 + (CARD_WIDTH - 140) - 300 + (300 - 200) / 2) (70 + 90) 200 200 ∈
      cardOps m p := by
  unfold cardOps
  simp [List.mem_append, List.mem_cons]

/-- C1 (amended): on the poster, banner and business card pages the
generation routine receives the QR data URL in its payload and its trace
draws that QR image strictly before the final operation, which is the PNG
export; the logo generator, by contrast, draws no image at all (see the
counterexample). -/
theorem qr_embedded_amended (env : Env) (pp : PosterPayload) (bp : BannerPayload)
    (cp : CardPayload) (c₁ c₂ c₃ : Canvas)
    (h₁ : createPoster env pp = .ok c₁) (h₂ : createBanner env bp = .ok c₂)
    (h₃ : createBusinessCard env cp = .ok c₃) :
    ((∃ x y w h, CanvasOp.drawImage (ImageRef.qr pp.qrDataUrl) x y w h ∈
        c₁.ops.dropLast) ∧
      c₁.ops.getLast? = some (CanvasOp.exportPNG "image/png")) ∧
    ((∃ x y w h, CanvasOp.drawImage (ImageRef.qr bp.qrDataUrl) x y w h ∈
        c₂.ops.dropLast) ∧
      c₂.ops.getLast? = some (CanvasOp.exportPNG "image/png")) ∧
    ((∃ x y w h, CanvasOp.drawImage (ImageRef.qr cp.qrDataUrl) x y w h ∈
        c₃.ops.dropLast) ∧
      c₃.ops.getLast? = some (CanvasOp.exportPNG "image/png")) := by
  obtain rfl := createPoster_ok h₁
  obtain rfl := createBanner_ok h₂
  obtain rfl := createBusinessCard_ok h₃
  obtain ⟨pre₁, hpre₁⟩ := posterOps_concat env.measure pp
  obtain ⟨pre₂, hpre₂⟩ := bannerOps_concat env.measure bp
  obtain ⟨pre₃, hpre₃⟩ := cardOps_concat env.measure cp
  refine ⟨⟨?_, ?_⟩, ⟨?_, ?_⟩, ⟨?_, ?_⟩⟩
  · have hmem := posterOps_qr_mem env.measure pp
    rw [hpre₁] at hmem ⊢
    rw [List.dropLast_concat]
    rcases List.mem_append.mp hmem with hm | hm
    · exact ⟨_, _, _, _, hm⟩
    · simp at hm
  · rw [hpre₁]
    exact List.getLast?_concat _
  · have hmem := bannerOps_qr_mem env.measure bp
    rw [hpre₂] at hmem ⊢
    rw [List.dropLast_concat]
    rcases List.mem_append.mp hmem with hm | hm
    · exact ⟨_, _, _, _, hm⟩
    · simp at hm
  · rw [hpre₂]
    exact List.getLast?_concat _
  · have hmem := cardOps_qr_mem env.measure cp
    rw [hpre₃] at hmem ⊢
    rw [List.dropLast_concat]
    rcases List.mem_append.mp hmem with hm | hm
    · exact ⟨_, _, _, _, hm⟩
    · simp at hm
  · rw [hpre₃]
    exact List.getLast?_concat _

/-- Counterexample for C1 as stated: the logo page is a page of the system,
its generation succeeds, yet its trace contains no drawImage operation at
all, in particular no QR bitmap; its payload has no QR data URL field. -/
theorem logo_draws_no_qr :
    createLogo env₀ logoPayload₀ = .ok logoC₀ ∧
    (logoC₀.ops.all fun op => !op.isDrawImage) = true :=
  ⟨rfl, logoOps_noDrawImage env₀.measure logoPayload₀⟩

/-- Witness for C1 at the concrete fixtures. -/
theorem qr_embedded_witness :
    createBanner env₀ bannerPayload₀ = .ok bannerC₀ ∧
    bannerC₀.ops.getLast? = some (CanvasOp.exportPNG "image/png") := by
  have h := qr_embedded_amended env₀ posterPayload₀ bannerPayload₀ cardPayload₀
    posterC₀ bannerC₀ cardC₀ rfl rfl rfl
  exact ⟨rfl, h.2.1.2⟩

/-- C2 (amended): on the banner, card and poster pages a successful
submission first encodes the trimmed URL as a QR data URL, then performs the
canvas drawing whose final operation is the PNG export, and the submit
handler publishes exactly those effects; no download effect occurs during
submission, the download being a separate handler reading the stored result.
The logo page omits the QR encoding step entirely (see the counterexample). -/
theorem pipeline_order_amended (env : Env) (bf : BannerForm) (cf : CardForm)
    (pf : PosterForm) (prevB : BannerPage) (c : Canvas) (effs : List Eff)
    (hne : jsTrim bf.url ≠ "")
    (hb : bannerTry env bf (jsTrim bf.url) = .ok (c, effs))
    (cc : Canvas) (ceffs : List Eff)
    (hc : cardTry env cf (jsTrim cf.website) = .ok (cc, ceffs))
    (rs : List PosterResult) (peffs : List Eff)
    (hp : posterTry env pf (jsTrim pf.url) = .ok (rs, peffs)) :
    (effs = [Eff.fontsLoad (fontSpec 700 60 DISPLAY_FONT),
             Eff.fontsLoad (fontSpec 500 24 BODY_FONT),
             Eff.qrEncode (jsTrim bf.url) 240 "#0F172A" "#FFFFFF",
             Eff.render c] ∧
      (∃ pre, c.ops = pre ++ [CanvasOp.exportPNG "image/png"]) ∧
      (bannerHandleSubmit env bf prevB).snd = effs ∧
      (effs.all fun e => !e.isDownload) = true ∧
      bannerHandleDownload ⟨some c, false, ""⟩ = [Eff.download c "banner.png"]) ∧
    (ceffs = [Eff.fontsLoad (fontSpec 700 44 DISPLAY_FONT),
              Eff.fontsLoad (fontSpec 600 18 BODY_FONT),
              Eff.qrEncode (jsTrim cf.website) 240 "#0F172A" "#FFFFFF",
              Eff.render cc] ∧
      ∃ pre, cc.ops = pre ++ [CanvasOp.exportPNG "image/png"]) ∧
    (∃ steps : List (PosterResult × List Eff),
      peffs = posterFontsEffs ++ (steps.map Prod.snd).flatten ∧
      ∀ s ∈ steps, ∃ w d l c2,
        s.snd = [Eff.qrEncode (jsTrim pf.url) w d l, Eff.render c2] ∧
        ∃ pre, c2.ops = pre ++ [CanvasOp.exportPNG "image/png"]) := by
  obtain ⟨q, hq, hcr, heffs⟩ := bannerTry_ok hb
  obtain rfl := createBanner_ok hcr
  obtain ⟨q2, hq2, hcr2, heffs2⟩ := cardTry_ok hc
  obtain rfl := createBusinessCard_ok hcr2
  obtain ⟨steps, hsteps, hrs, hpeffs⟩ := posterTry_ok hp
  obtain ⟨s1, s2, s3, hsh, hall⟩ := posterSteps_ok_shape hsteps
  refine ⟨⟨heffs, bannerOps_concat env.measure _, ?_, ?_, rfl⟩,
    ⟨heffs2, cardOps_concat env.measure _⟩, ⟨steps, hpeffs, hall⟩⟩
  · unfold bannerHandleSubmit
    rw [if_neg hne, hb]
  · rw [heffs]
    rfl

/-- Counterexample for C2 as stated: the logo page submission succeeds while
performing no QR encoding effect at all, so its pipeline does not start by
encoding a URL. -/
theorem logo_pipeline_no_qr_encode :
    logoTry env₀ logoForm₀ = .ok logoRun₀ ∧
    (logoRun₀.snd.all fun e => !e.isQrEncode) = true :=
  ⟨rfl, rfl⟩

/-- Witness for C2 at the concrete fixtures. -/
theorem pipeline_order_witness :
    jsTrim bannerForm₀.url ≠ "" ∧
    bannerRun₀.snd = [Eff.fontsLoad (fontSpec 700 60 DISPLAY_FONT),
      Eff.fontsLoad (fontSpec 500 24 BODY_FONT),
      Eff.qrEncode (jsTrim bannerForm₀.url) 240 "#0F172A" "#FFFFFF",
      Eff.render bannerRun₀.fst] := by
  have h := pipeline_order_amended env₀ bannerForm₀ cardForm₀ posterForm₀
    ⟨none, false, ""⟩ bannerRun₀.fst bannerRun₀.snd (by decide) rfl
    cardRun₀.fst cardRun₀.snd rfl posterRun₀.fst posterRun₀.snd rfl
  exact ⟨by decide, h.1.1⟩

end Site2QR

